import Mathlib

/-!
Verification development for the connection-management core (the `Auth`
service) of the AWS Toolkit for VS Code.  The effectful TypeScript methods are
embedded as explicit state transformers over `AuthState` that return
`Except Err`; external collaborators (the SSO token provider, the credentials
cache, interactive prompts, host environment flags) are oracles collected in
`Env`.  Fired events and calls to external collaborators are recorded in an
event log inside the state (most recent first).
-/

set_option maxHeartbeats 1000000

namespace AwsAuth

/-- Connection state machine states (`ProfileMetadata.connectionState`). -/
inductive ConnState where
  | unauthenticated
  | authenticating
  | valid
  | invalid
deriving DecidableEq, Repr

/-- Flat error data.  `network` models the code-based `isNetworkError`
classification (the classifier lives in `shared/errors`, outside the given
sources; the spec distinguishes a "network error" kind, and the classifier
keys on the error `code`, which `ToolkitError` wrappers copy).  `diskCache`
models `e instanceof DiskCacheError`, which wrappers do not satisfy. -/
structure ErrBase where
  message : String
  code : Option String
  network : Bool
  diskCache : Bool
  cancelled : Bool
  profileNotFound : Bool
deriving DecidableEq, Repr

/-- An error together with its (flattened) `cause`. -/
structure Err where
  base : ErrBase
  cause : Option ErrBase
deriving DecidableEq, Repr

/-- Plain error with only a message, as thrown by `new Error(...)` or a
`ToolkitError` without options. -/
def mkErr (message : String) : Err :=
  { base := { message := message, code := none, network := false, diskCache := false,
              cancelled := false, profileNotFound := false },
    cause := none }

/-- Modelled from the spec: `ProfileNotFoundError` thrown by
`ProfileStore.getProfileOrThrow` for an absent id (the store lives in
`./connection`, outside the given sources). -/
def profileNotFoundErr (id : String) : Err :=
  { base := { message := "Profile does not exist: " ++ id, code := none, network := false,
              diskCache := false, cancelled := false, profileNotFound := true },
    cause := none }

/-- Error code constant `errorCode.invalidConnection` from `shared/errors`. -/
def errorCodeInvalidConnection : String := "InvalidConnection"

/-- IAM profile subtypes relevant to the claims.  `unknown` also stands for a
missing subtype (`!profile.subtype`), which the code treats identically. -/
inductive ProfileData where
  | sso (startUrl : String) (ssoRegion : String) (scopes : Option (List String))
  | iamUnknown
  | iamLinked (name : String) (ssoSession : String) (ssoAccountId : String) (ssoRoleName : String)
deriving DecidableEq, Repr

/-- Mutable sidecar metadata stored with a profile. -/
structure Metadata where
  connectionState : ConnState
  label : Option String
  source : Option String
deriving DecidableEq, Repr

/-- Partial metadata accepted by `ProfileStore.updateMetadata`. -/
structure MetadataPatch where
  connectionState : Option ConnState := none
  label : Option String := none
  source : Option String := none
deriving DecidableEq, Repr

/-- Modelled from the spec: `updateMetadata` merges the given fields into the
stored metadata. -/
def applyPatch (m : Metadata) (p : MetadataPatch) : Metadata :=
  { connectionState := p.connectionState.getD m.connectionState,
    label := match p.label with
      | some l => some l
      | none => m.label,
    source := match p.source with
      | some s => some s
      | none => m.source }

/-- A persisted profile together with its metadata (`StoredProfile`). -/
structure StoredProfile where
  profile : ProfileData
  metadata : Metadata
deriving DecidableEq, Repr

/-- Connection variants. -/
inductive ConnType where
  | sso
  | iam
deriving DecidableEq, Repr

/-- Runtime `Connection` projection (data part only; the live `getToken` and
`getCredentials` accessors are modelled by the operations below). -/
structure Conn where
  id : String
  connType : ConnType
  state : ConnState
  label : String
  startUrl : Option String
  ssoRegion : Option String
  scopes : Option (List String)
deriving DecidableEq, Repr

/-- Callbacks passed to the coalesced `authenticate` operation. -/
inductive AuthCallback where
  | createToken (tokenId : String)
  | createCachedCredentials (providerId : String)
  | refreshTag (n : Nat)
deriving DecidableEq, Repr

/-- Calls made to external collaborators, recorded in the event log. -/
inductive ExtCall where
  | getTokenCall (tokenId : String)
  | createTokenCall (tokenId : String)
  | providerInvalidateCall (tokenId : String) (reason : String)
  | clientLogoutCall (id : String)
  | invalidateCredentialsCall (id : String)
  | upsertCredentialsCall (id : String)
  | getCachedCredentialsCall (id : String)
  | canAutoConnectCall (id : String)
  | promptShown (id : String)
  | setContextCall (key : String) (value : Bool)
  | authenticateCall (id : String) (cb : AuthCallback)
  | logoutEntry
  | addIamProviderCall (id : String)
deriving DecidableEq, Repr

/-- Events fired on the `Auth` event emitters, plus recorded external calls. -/
inductive Ev where
  | activeConnectionChanged (c : Option Conn)
  | connectionStateChanged (id : String) (st : ConnState)
  | connectionUpdated (c : Conn)
  | connectionDeleted (connId : String) (storedProfile : Option StoredProfile)
  | ext (c : ExtCall)
deriving DecidableEq, Repr

/-- An armed invalid-credential `Timeout`: duration in milliseconds and
whether `dispose()` has been called on it. -/
structure TimerEntry where
  duration : Nat
  disposed : Bool
deriving DecidableEq, Repr

/-- Entry of the declared-connections registry (`DeclaredConnection`). -/
structure DeclaredConn where
  startUrl : String
  ssoRegion : String
  source : String
deriving DecidableEq, Repr

/-- Association-list lookup (first match wins), used for all keyed maps. -/
def assocGet {α : Type} : List (String × α) → String → Option α
  | [], _ => none
  | (k, v) :: rest, key => if k = key then some v else assocGet rest key

/-- Association-list removal of every entry with the given key. -/
def assocDelete {α : Type} (l : List (String × α)) (key : String) : List (String × α) :=
  l.filter (fun e => e.1 != key)

/-- Association-list insert-or-replace (`map.set(key, v)`). -/
def assocSet {α : Type} (l : List (String × α)) (key : String) (v : α) : List (String × α) :=
  (key, v) :: assocDelete l key

/-- The in-process state owned by the `Auth` service: the profile store, the
current-profile pointer, the validation-error registry, the armed
invalid-credential timers, the active connection, the declared-connections
registry, and the log of fired events (most recent first). -/
structure AuthState where
  store : List (String × StoredProfile)
  currentProfileId : Option String
  validationErrors : List (String × Err)
  invalidCredTimeouts : List (String × TimerEntry)
  activeConnection : Option Conn
  declaredConnections : List (String × DeclaredConn)
  events : List Ev
deriving DecidableEq, Repr

/-- User response to the "login again?" prompt raced against the 60s timer. -/
inductive PromptResp where
  | login
  | no
  | timedOut
deriving DecidableEq, Repr

/-- Oracles for the external collaborators, keyed by token-provider identifier
or credentials-provider id as appropriate. -/
structure Env where
  getToken : String → Except Err (Option String)
  createToken : String → Except Err String
  getCachedCredentials : String → Except Err (Option String)
  canAutoConnect : String → Bool
  createCachedCredentials : String → Except Err String
  hasIamProvider : String → Bool
  promptResp : String → PromptResp
  refresh : Nat → Except Err String
  isAmazonQ : Bool
  codeCatalystDevEnvId : Option String
  ssoSessionName : String

/-- State-and-error monad for the embedded `Auth` methods.  State mutations
made before a throw persist, matching the imperative source. -/
abbrev AuthM (α : Type) : Type := AuthState → Except Err α × AuthState

def pureA {α : Type} (a : α) : AuthM α := fun s => (Except.ok a, s)

def bindA {α β : Type} (m : AuthM α) (f : α → AuthM β) : AuthM β := fun s =>
  match m s with
  | (Except.ok a, s2) => f a s2
  | (Except.error e, s2) => (Except.error e, s2)

instance : Monad AuthM where
  pure := pureA
  bind := bindA

def throwA {α : Type} (e : Err) : AuthM α := fun s => (Except.error e, s)

def tryCatchA {α : Type} (m : AuthM α) (h : Err → AuthM α) : AuthM α := fun s =>
  match m s with
  | (Except.ok a, s2) => (Except.ok a, s2)
  | (Except.error e, s2) => h e s2

def getA : AuthM AuthState := fun s => (Except.ok s, s)

def setA (s2 : AuthState) : AuthM Unit := fun _ => (Except.ok (), s2)

def modifyA (f : AuthState → AuthState) : AuthM Unit := fun s => (Except.ok (), f s)

def liftE {α : Type} (r : Except Err α) : AuthM α := fun s => (r, s)

/-- Fire an event (record it in the log, most recent first). -/
def fireE (e : Ev) : AuthM Unit :=
  modifyA fun s => { s with events := e :: s.events }

/-- Record a call to an external collaborator. -/
def logC (c : ExtCall) : AuthM Unit := fireE (Ev.ext c)

/-- Modelled from the spec: `ProfileStore.getProfile` returns the stored
profile or absent. -/
def getProfileM (id : String) : AuthM (Option StoredProfile) := do
  let s ← getA
  pure (assocGet s.store id)

/-- Modelled from the spec: `ProfileStore.getProfileOrThrow` fails with
`ProfileNotFoundError` if the id is absent. -/
def getProfileOrThrowM (id : String) : AuthM StoredProfile := do
  let s ← getA
  match assocGet s.store id with
  | some p => pure p
  | none => throwA (profileNotFoundErr id)

/-- Modelled from the spec: `ProfileStore.addProfile` fails if the id exists,
otherwise persists the profile with fresh metadata in the initial
`unauthenticated` state. -/
def addProfileM (id : String) (p : ProfileData) : AuthM StoredProfile := do
  let s ← getA
  match assocGet s.store id with
  | some _ => throwA (mkErr ("Profile already exists: " ++ id))
  | none => do
    let sp : StoredProfile :=
      { profile := p,
        metadata := { connectionState := ConnState.unauthenticated, label := none, source := none } }
    setA { s with store := assocSet s.store id sp }
    pure sp

/-- Modelled from the spec: `ProfileStore.updateMetadata` merges the given
fields into the stored metadata, failing if the id is absent. -/
def updateMetadataM (id : String) (patch : MetadataPatch) : AuthM StoredProfile := do
  let s ← getA
  match assocGet s.store id with
  | none => throwA (profileNotFoundErr id)
  | some sp => do
    let sp2 : StoredProfile := { sp with metadata := applyPatch sp.metadata patch }
    setA { s with store := assocSet s.store id sp2 }
    pure sp2

/-- Modelled from the spec: `ProfileStore.deleteProfile` removes the entry. -/
def deleteProfileM (id : String) : AuthM Unit :=
  modifyA fun s => { s with store := assocDelete s.store id }

/-- Modelled from the spec: `ProfileStore.setCurrentProfileId`. -/
def setCurrentProfileIdM (v : Option String) : AuthM Unit :=
  modifyA fun s => { s with currentProfileId := v }

/-- AWS Builder ID start URL constant (`builderIdStartUrl` in `sso/constants`,
outside the given sources; the exact value is irrelevant to the claims). -/
def builderIdStartUrl : String := "https://view.awsapps.com/start"

/-- Modelled from the spec: the known internal start URL used to derive the
"internal org user" ambient flag (`internalStartUrl` in `sso/constants`). -/
def internalStartUrl : String := "https://amzn.awsapps.com/start"

/-- CodeCatalyst scope set (`scopesCodeCatalyst` in `./connection`, outside
the given sources). -/
def scopesCodeCatalyst : List String := ["codecatalyst:read_write"]

/-- Removes any trailing slash and hash characters from a start URL
(`Auth.normalizeStartUrl`). -/
def normalizeStartUrl (startUrl : String) : String :=
  String.mk (((startUrl.data.reverse).dropWhile (fun c => c = '/' ∨ c = '#')).reverse)

/-- The active connection is an internal-Amazon-user SSO connection
(`Auth.isInternalAmazonUser`: connected and normalized start URL equals the
internal start URL). -/
def isInternalAmazonUserS (s : AuthState) : Bool :=
  match s.activeConnection with
  | some c =>
    match c.connType, c.startUrl with
    | ConnType.sso, some u => normalizeStartUrl u = internalStartUrl
    | _, _ => false
  | none => false

/-- Token-provider cache identifier chosen by `Auth.getSsoTokenProvider`: the
sso-session name when running in a CodeCatalyst Dev Environment with a
strictly-CodeCatalyst scope set, the connection id otherwise. -/
def ssoTokenProviderId (env : Env) (id : String) (scopes : Option (List String)) : String :=
  if env.codeCatalystDevEnvId.isSome
      && (match scopes with
          | some sc => sc.all (fun x => scopesCodeCatalyst.contains x)
          | none => false) then
    env.ssoSessionName
  else
    id

/-- Human label for an SSO profile (`Auth.getSsoProfileLabel`; the
`truncateStartUrl` helper from `sso/model` is outside the given sources and is
modelled as the identity, which no claim depends on). -/
def ssoProfileLabel (startUrl : String) : String :=
  if startUrl = builderIdStartUrl then "AWS Builder ID"
  else "IAM Identity Center (" ++ startUrl ++ ")"

/-- Builds the `Connection` projection for a stored profile
(`Auth.getSsoConnection` / `Auth.getIamConnection`, data part). -/
def mkConn (id : String) (p : StoredProfile) : Conn :=
  match p.profile with
  | ProfileData.sso startUrl region scopes =>
    { id := id, connType := ConnType.sso, state := p.metadata.connectionState,
      label := p.metadata.label.getD (ssoProfileLabel startUrl),
      startUrl := some startUrl, ssoRegion := some region, scopes := scopes }
  | ProfileData.iamUnknown =>
    { id := id, connType := ConnType.iam, state := p.metadata.connectionState,
      label := p.metadata.label.getD id,
      startUrl := none, ssoRegion := none, scopes := none }
  | ProfileData.iamLinked name _ _ _ =>
    { id := id, connType := ConnType.iam, state := p.metadata.connectionState,
      label := p.metadata.label.getD name,
      startUrl := none, ssoRegion := none, scopes := none }

/-- Marks every timer entry for the id as disposed
(`#invalidCredentialsTimeouts.get(id)?.dispose()` disposes the `Timeout` but
does not remove the map entry). -/
def disposeTimers (l : List (String × TimerEntry)) (id : String) : List (String × TimerEntry) :=
  l.map fun e => if e.1 = id then (e.1, { e.2 with disposed := true }) else e

/-- Embeds `Auth.updateConnectionState`: `authenticating` is announced
immediately without touching the store; other states are persisted only when
they differ from the stored state, clearing the validation-error registry and
disposing any pending invalid-credential timer when the new state is not
`invalid`, mutating the active connection in place when the ids match, and
firing the state-change event. -/
def updateConnectionState (id : String) (cs : ConnState) : AuthM (Option StoredProfile) := do
  if cs = ConnState.authenticating then
    fireE (Ev.connectionStateChanged id cs)
    pure none
  else do
    let oldProfile ← getProfileOrThrowM id
    if oldProfile.metadata.connectionState = cs then
      pure (some oldProfile)
    else do
      let profile ← updateMetadataM id { connectionState := some cs }
      if cs ≠ ConnState.invalid then
        modifyA fun s =>
          { s with validationErrors := assocDelete s.validationErrors id,
                   invalidCredTimeouts := disposeTimers s.invalidCredTimeouts id }
      else
        pure ()
      let s ← getA
      match s.activeConnection with
      | some c =>
        if c.id = id then do
          let c2 : Conn := { c with state := cs }
          setA { s with activeConnection := some c2 }
          fireE (Ev.activeConnectionChanged (some c2))
        else
          pure ()
      | none => pure ()
      fireE (Ev.connectionStateChanged id cs)
      pure (some profile)

/-- Wrapper built by `Auth.throwOnRecoverableError` for a recoverable
infrastructure error, or `none` for non-recoverable errors.  A network error
is wrapped in a `ToolkitError` that copies the `code` (and therefore remains a
network error for the code-based classifier); a `DiskCacheError` is wrapped in
a plain `ToolkitError` that is not itself a `DiskCacheError` instance. -/
def recoverableWrap (e : Err) : Option Err :=
  if e.base.network then
    some { base := { message := "Failed to update connection due to networking issues",
                     code := e.base.code, network := e.base.network, diskCache := false,
                     cancelled := false, profileNotFound := false },
           cause := some e.base }
  else if e.base.diskCache then
    some { base := { message := "Failed to update connection due to file system operation failures",
                     code := e.base.code, network := false, diskCache := false,
                     cancelled := false, profileNotFound := false },
           cause := some e.base }
  else
    none

/-- Embeds `Auth.throwOnRecoverableError`: rethrows recoverable infrastructure
errors wrapped with their cause; returns normally otherwise. -/
def throwOnRecoverableErrorM (e : Err) : AuthM Unit :=
  match recoverableWrap e with
  | some w => throwA w
  | none => pureA ()

/-- Embeds `Auth.handleSsoTokenError`: rethrows recoverable errors (without
recording them), records non-recoverable errors in the validation-error
registry. -/
def handleSsoTokenError (id : String) (err : Err) : AuthM Unit := do
  throwOnRecoverableErrorM err
  modifyA fun s => { s with validationErrors := assocSet s.validationErrors id err }

/-- Embeds `Auth.invalidateConnection`: for SSO, server-side logout (unless
skipped) and token-provider invalidation (outside Dev Environments, or always
for Amazon Q); for IAM, credentials-cache invalidation; then the state is set
to `invalid`. -/
def invalidateConnection (env : Env) (id : String) (skipGlobalLogout : Bool) :
    AuthM (Option StoredProfile) := do
  let profile ← getProfileOrThrowM id
  match profile.profile with
  | ProfileData.sso _ _ scopes => do
    if !skipGlobalLogout then
      logC (ExtCall.clientLogoutCall id)
    else
      pure ()
    if env.codeCatalystDevEnvId.isNone || env.isAmazonQ then
      logC (ExtCall.providerInvalidateCall (ssoTokenProviderId env id scopes) ("explicitInvalidation"))
    else
      pure ()
  | _ => logC (ExtCall.invalidateCredentialsCall id)
  updateConnectionState id ConnState.invalid

/-- Embeds `Auth.logout`: no-op when nothing is active; otherwise clears the
current-profile pointer, invalidates the active connection, clears the active
reference and fires the active-connection-changed event. -/
def logout (env : Env) : AuthM Unit := do
  let s ← getA
  match s.activeConnection with
  | none => pure ()
  | some c => do
    logC ExtCall.logoutEntry
    setCurrentProfileIdM none
    let _i ← invalidateConnection env c.id false
    modifyA fun s2 => { s2 with activeConnection := none }
    fireE (Ev.activeConnectionChanged none)

/-- Modelled from the spec: `loadIamProfilesIntoStore` (declared in
`./connection`, outside the given sources) evicts stale linked IAM profiles
whose source SSO profile was removed from the store.  The reloading of
environment-sourced IAM profiles is not modelled; no claim depends on it. -/
def loadIamProfilesIntoStoreModel : AuthM Unit :=
  modifyA fun s =>
    { s with store := s.store.filter fun e =>
        match e.2.profile with
        | ProfileData.iamLinked _ src _ _ => (assocGet s.store src).isSome
        | _ => true }

/-- Embeds `Auth.clearStaleLinkedIamConnections`: evicts stale linked IAM
profiles, and clears the active connection (firing the change event) if its
profile no longer exists. -/
def clearStaleLinkedIamConnections : AuthM Unit := do
  loadIamProfilesIntoStoreModel
  let s ← getA
  match s.activeConnection with
  | some c =>
    if (assocGet s.store c.id).isNone then do
      setA { s with activeConnection := none }
      fireE (Ev.activeConnectionChanged none)
    else
      pure ()
  | none => pure ()

/-- Embeds `Auth.deleteConnection`: an absent profile is treated as already
deleted; deleting the active connection performs `logout`, otherwise the
connection is invalidated; the profile is removed, stale linked IAM profiles
are swept for SSO profiles, and the deletion event always fires. -/
def deleteConnection (env : Env) (connId : String) : AuthM Unit := do
  let s ← getA
  let profile := assocGet s.store connId
  match profile with
  | some p => do
    if (s.activeConnection.map fun c => c.id) = some connId then
      logout env
    else
      let _i ← invalidateConnection env connId false
    deleteProfileM connId
    match p.profile with
    | ProfileData.sso _ _ _ => clearStaleLinkedIamConnections
    | _ => pure ()
  | none => pure ()
  fireE (Ev.connectionDeleted connId profile)

/-- Embeds `Auth.getCredentialsProvider` (side effects and failure cases; the
returned provider is represented by the connection id used to key the
oracles).  For an unknown subtype the provider-manager lookup may fail; for a
linked subtype the source profile must exist and be SSO, and the derived
provider is registered with the provider manager. -/
def getCredentialsProviderM (env : Env) (id : String) (p : StoredProfile) : AuthM Unit := do
  match p.profile with
  | ProfileData.iamLinked _ src _ _ => do
    let s ← getA
    match assocGet s.store src with
    | none => throwA (mkErr ("Source profile for " ++ id ++ " no longer exists"))
    | some sp =>
      match sp.profile with
      | ProfileData.sso _ _ _ => logC (ExtCall.addIamProviderCall id)
      | _ => throwA (mkErr ("Source profile for " ++ id ++ " is not an SSO profile"))
  | _ =>
    if env.hasIamProvider id then
      pure ()
    else
      throwA (mkErr ("Credentials provider " ++ id ++ " not found"))

/-- Embeds `Auth.getCachedCredentials`: consults the external credentials
cache (the fingerprint comparison is folded into the oracle, which returns the
credentials only on a fresh hit). -/
def getCachedCredentialsM (env : Env) (id : String) : AuthM (Option String) := do
  logC (ExtCall.getCachedCredentialsCall id)
  liftE (env.getCachedCredentials id)

/-- Embeds `Auth.createCachedCredentials`: invalidates, then upserts and
validates fresh credentials through the external cache collaborator. -/
def createCachedCredentialsM (env : Env) (id : String) : AuthM String := do
  logC (ExtCall.invalidateCredentialsCall id)
  logC (ExtCall.upsertCredentialsCall id)
  liftE (env.createCachedCredentials id)

/-- Runs one of the callbacks passed to `authenticate`. -/
def runCallback (env : Env) : AuthCallback → AuthM String
  | AuthCallback.createToken tid => do
    logC (ExtCall.createTokenCall tid)
    liftE (env.createToken tid)
  | AuthCallback.createCachedCredentials pid => createCachedCredentialsM env pid
  | AuthCallback.refreshTag n => liftE (env.refresh n)

/-- Embeds `Auth._authenticate`: announces `authenticating`, runs the
callback, and on success persists `valid`; on failure classifies the error
(rethrowing recoverable ones) and restores the original state (or forces
`invalid` when requested) before rethrowing. -/
def authenticateCore (env : Env) (id : String) (cb : AuthCallback) (invalidate : Bool) :
    AuthM String := do
  let s ← getA
  let originalState :=
    match assocGet s.store id with
    | some p => p.metadata.connectionState
    | none => ConnState.unauthenticated
  let _a ← updateConnectionState id ConnState.authenticating
  tryCatchA
    (do
      let result ← runCallback env cb
      let _v ← updateConnectionState id ConnState.valid
      pure result)
    (fun err => do
      handleSsoTokenError id err
      let _r ← updateConnectionState id (if invalidate then ConnState.invalid else originalState)
      throwA err)

/-- Embeds the coalesced `Auth.authenticate` entry point.  The `keyedDebounce`
combinator sequentializes concurrent calls per id; its pending-map mechanism
is modelled separately by `kdCall` below, and in this sequential embedding the
entry point records the call and runs the underlying operation. -/
def authenticate (env : Env) (id : String) (cb : AuthCallback) (invalidate : Bool) :
    AuthM String := do
  logC (ExtCall.authenticateCall id cb)
  authenticateCore env id cb invalidate

/-- Embeds `Auth.validateConnection` (fuel bounds the recursion into the
source profile of a linked IAM profile; the source must be SSO, so any fuel
of at least two gives the behaviour of the source).  SSO: a present token is
`valid`, an absent token `invalid`.  IAM with linked subtype: the source SSO
connection is validated first and a non-`valid` result forces `invalid`;
otherwise a fresh credentials-cache hit is `valid`, a miss auto-connects when
possible, and otherwise the state is `invalid`.  Errors from the check are
classified: recoverable ones propagate without touching the state, others are
recorded and collapse the connection to `invalid`. -/
def validateConnection : Nat → Env → String → StoredProfile → AuthM (Option StoredProfile)
  | 0, _, _, _ => throwA (mkErr ("validation fuel exhausted"))
  | Nat.succ fuel, env, id, profile =>
    tryCatchA
      (match profile.profile with
       | ProfileData.sso _ _ scopes => do
         let tid := ssoTokenProviderId env id scopes
         logC (ExtCall.getTokenCall tid)
         match env.getToken tid with
         | Except.error e => throwA e
         | Except.ok none => updateConnectionState id ConnState.invalid
         | Except.ok (some _) => updateConnectionState id ConnState.valid
       | _ => do
         let proceed ←
           match profile.profile with
           | ProfileData.iamLinked _ src _ _ => do
             let sourceProfile ← getProfileOrThrowM src
             match sourceProfile.profile with
             | ProfileData.sso _ _ _ => do
               let validatedSource ← validateConnection fuel env src sourceProfile
               let srcValid : Bool :=
                 match validatedSource with
                 | some sp => decide (sp.metadata.connectionState = ConnState.valid)
                 | none => false
               pure srcValid
             | _ => throwA (mkErr ("Linked profiles must use an SSO connection"))
           | _ => pure true
         if proceed then do
           getCredentialsProviderM env id profile
           let credentials ← getCachedCredentialsM env id
           match credentials with
           | some _ => updateConnectionState id ConnState.valid
           | none => do
             logC (ExtCall.canAutoConnectCall id)
             if env.canAutoConnect id then do
               let _au ← authenticate env id (AuthCallback.createCachedCredentials id) false
               let p ← getProfileOrThrowM id
               pure (some p)
             else
               updateConnectionState id ConnState.invalid
         else
           updateConnectionState id ConnState.invalid)
      (fun err => do
        handleSsoTokenError id err
        let _u ← updateConnectionState id ConnState.invalid
        pure none)

/-- Embeds `Auth.refreshConnectionState` for a given id: re-runs validation
when the profile exists, otherwise does nothing. -/
def refreshConnectionState (env : Env) (fuel : Nat) (id : String) : AuthM Unit := do
  let s ← getA
  match assocGet s.store id with
  | none => pure ()
  | some profile => do
    let _v ← validateConnection fuel env id profile
    pure ()

/-- Embeds `Auth.useConnection`: revalidates, resolves the profile (failing if
it does not exist), builds the `Connection` projection, sets it active, fires
the active-connection-changed event, persists the current-profile pointer and
updates the ambient internal-user flag. -/
def useConnection (env : Env) (fuel : Nat) (id : String) : AuthM Conn := do
  refreshConnectionState env fuel id
  let s ← getA
  match assocGet s.store id with
  | none => throwA (mkErr ("Connection does not exist: " ++ id))
  | some profile => do
    let conn := mkConn id profile
    modifyA fun s2 => { s2 with activeConnection := some conn }
    fireE (Ev.activeConnectionChanged (some conn))
    setCurrentProfileIdM (some id)
    let s3 ← getA
    logC (ExtCall.setContextCall ("aws.isInternalUser") (isInternalAmazonUserS s3))
    pure conn

/-- The "connection invalid, log in again" error thrown when credentials were
already invalid, carrying the last recorded validation error as cause. -/
def invalidConnectionErr (cause : Option Err) : Err :=
  { base := { message := "Connection is invalid or expired. Try logging in again.",
              code := some errorCodeInvalidConnection, network := false, diskCache := false,
              cancelled := false, profileNotFound := false },
    cause := cause.map Err.base }

/-- The cancellation-tagged error thrown when the user declines the login
prompt or the 60-second timer elapses first. -/
def userCancelledErr (cause : Option Err) : Err :=
  { base := { message := "User cancelled login", code := some errorCodeInvalidConnection,
              network := false, diskCache := false, cancelled := true, profileNotFound := false },
    cause := cause.map Err.base }

/-- Embeds `Auth.handleInvalidCredentials`: a vanished profile is deleted and
the not-found error rethrown; the state is demoted to `invalid`; a connection
that was already `invalid` fails immediately with the invalid-connection
error; a previously `valid` connection arms a 60-second timer, races the
login prompt against it, and fails with a cancellation-tagged error unless the
user accepts; on acceptance the coalesced authenticate path is re-invoked with
the original refresh callback. -/
def handleInvalidCredentials (env : Env) (id : String) (refresh : AuthCallback) :
    AuthM String := do
  let s ← getA
  let profile ←
    match assocGet s.store id with
    | some p => pure p
    | none => do
      deleteConnection env id
      throwA (profileNotFoundErr id)
  let previousState := profile.metadata.connectionState
  let _u ← updateConnectionState id ConnState.invalid
  if previousState = ConnState.invalid then do
    let s2 ← getA
    throwA (invalidConnectionErr (assocGet s2.validationErrors id))
  else
    pure ()
  if previousState = ConnState.valid then do
    modifyA fun s2 =>
      { s2 with invalidCredTimeouts :=
          assocSet s2.invalidCredTimeouts id { duration := 60000, disposed := false } }
    logC (ExtCall.promptShown id)
    let s3 ← getA
    match env.promptResp id with
    | PromptResp.login => pure ()
    | _ => throwA (userCancelledErr (assocGet s3.validationErrors id))
  else
    pure ()
  authenticate env id refresh false

/-- Embeds `Auth._getToken` (the coalesced token fetch): a token-provider
failure is rethrown if recoverable, otherwise recorded and treated as an
absent token; an absent token enters the interactive recovery path with a
`createToken` refresh callback. -/
def getTokenOp (env : Env) (id : String) (tid : String) : AuthM String := do
  logC (ExtCall.getTokenCall tid)
  let token ←
    match env.getToken tid with
    | Except.ok t => pure t
    | Except.error err => do
      throwOnRecoverableErrorM err
      modifyA fun s => { s with validationErrors := assocSet s.validationErrors id err }
      pure none
  match token with
  | some t => pure t
  | none => handleInvalidCredentials env id (AuthCallback.createToken tid)

/-- Embeds `Auth.createConnection`: IAM profiles are rejected outright; for an
SSO profile a fresh id is announced as `authenticating`, a token is obtained
or created, the profile is persisted and marked `valid`; on any failure the
just-created profile is deleted and the error rethrown. -/
def createConnection (env : Env) (freshId : String) (profile : ProfileData) : AuthM Conn := do
  match profile with
  | ProfileData.iamUnknown => throwA (mkErr ("Creating IAM connections is not supported"))
  | ProfileData.iamLinked _ _ _ _ => throwA (mkErr ("Creating IAM connections is not supported"))
  | ProfileData.sso _ _ scopes => do
    let _a ← updateConnectionState freshId ConnState.authenticating
    let tid := ssoTokenProviderId env freshId scopes
    tryCatchA
      (do
        logC (ExtCall.getTokenCall tid)
        let _u ←
          match env.getToken tid with
          | Except.error e => throwA e
          | Except.ok (some _) => pure ()
          | Except.ok none => do
            logC (ExtCall.createTokenCall tid)
            let _t ← liftE (env.createToken tid)
        let storedProfile ← addProfileM freshId profile
        let _v ← updateConnectionState freshId ConnState.valid
        pure (mkConn freshId storedProfile))
      (fun err => do
        deleteProfileM freshId
        throwA err)

/-- Embeds `Auth.declareConnectionFromApi`: records the declared connection
keyed by start URL. -/
def declareConnectionFromApi (startUrl ssoRegion source : String) : AuthM Unit :=
  modifyA fun s =>
    let d : DeclaredConn := { startUrl := startUrl, ssoRegion := ssoRegion, source := source }
    { s with declaredConnections := assocSet s.declaredConnections startUrl d }

/-- Embeds `Auth.undeclareConnectionFromApi`: the debug log dereferences the
registry entry (`this._declaredConnections[conn.startUrl].source`) before
deleting it, so an absent entry raises a TypeError; a present entry is
removed. -/
def undeclareConnectionFromApi (startUrl : String) : AuthM Unit := do
  let s ← getA
  match assocGet s.declaredConnections startUrl with
  | none => throwA (mkErr ("TypeError: cannot read source of undefined"))
  | some _ =>
    setA { s with declaredConnections := assocDelete s.declaredConnections startUrl }

/-- Modelled from the spec: the pending-map state of the `keyedDebounce`
combinator from `shared/utilities/functionUtils` (outside the given sources):
a map from key to the in-flight operation instance, plus a counter naming the
next operation instance. -/
structure KdState where
  pending : List (String × Nat)
  nextOp : Nat
deriving DecidableEq, Repr

/-- Modelled from the spec: a call entering `keyedDebounce` for a key.
Returns the new pending-map state, the operation instance whose result this
caller receives, and whether a fresh underlying operation was started (a call
for a key with an in-flight operation attaches to it instead). -/
def kdCall (k : String) (s : KdState) : KdState × Nat × Bool :=
  match assocGet s.pending k with
  | some op => (s, op, false)
  | none => ({ pending := assocSet s.pending k s.nextOp, nextOp := s.nextOp + 1 }, s.nextOp, true)

/-- Modelled from the spec: the in-flight operation for a key settles and its
pending-map entry is cleaned up. -/
def kdSettle (k : String) (s : KdState) : KdState :=
  { s with pending := assocDelete s.pending k }

end AwsAuth

namespace AwsAuth

theorem bindA_eq {α β : Type} (m : AuthM α) (f : α → AuthM β) :
    (m >>= f) = bindA m f := rfl

theorem pureA_eq {α : Type} (a : α) : (pure a : AuthM α) = pureA a := rfl

/-- Connection state currently recorded in the store for an id. -/
def connStateOf (s : AuthState) (id : String) : Option ConnState :=
  (assocGet s.store id).map fun p => p.metadata.connectionState

/-- Whether an `Except` result is a success. -/
def isOkE {α : Type} : Except Err α → Bool
  | Except.ok _ => true
  | Except.error _ => false

/-- Number of occurrences of an event in the log. -/
def countEv (p : Ev) : List Ev → Nat
  | [] => 0
  | e :: rest => (if e = p then 1 else 0) + countEv p rest

/-- Number of active-connection-changed events (any payload) in the log. -/
def countActiveEv : List Ev → Nat
  | [] => 0
  | Ev.activeConnectionChanged _ :: rest => 1 + countActiveEv rest
  | _ :: rest => countActiveEv rest

/-- The stored profile with its connection state replaced. -/
def patchState (p : StoredProfile) (cs : ConnState) : StoredProfile :=
  { p with metadata := { p.metadata with connectionState := cs } }

/-- Closed form of the state produced by `updateConnectionState` when a new
state is actually persisted. -/
def updatedStateD (s : AuthState) (id : String) (cs : ConnState) (p2 : StoredProfile) :
    AuthState :=
  let s1 := { s with store := assocSet s.store id p2 }
  let s2 :=
    if cs ≠ ConnState.invalid then
      { s1 with validationErrors := assocDelete s1.validationErrors id,
                invalidCredTimeouts := disposeTimers s1.invalidCredTimeouts id }
    else s1
  match s2.activeConnection with
  | some c =>
    if c.id = id then
      { s2 with activeConnection := some { c with state := cs },
                events := Ev.connectionStateChanged id cs ::
                  Ev.activeConnectionChanged (some { c with state := cs }) :: s2.events }
    else
      { s2 with events := Ev.connectionStateChanged id cs :: s2.events }
  | none => { s2 with events := Ev.connectionStateChanged id cs :: s2.events }

theorem assocGet_set_self {α : Type} (l : List (String × α)) (k : String) (v : α) :
    assocGet (assocSet l k v) k = some v := by
  simp [assocSet, assocGet]

theorem assocDelete_cons {α : Type} (e : String × α) (rest : List (String × α)) (k : String) :
    assocDelete (e :: rest) k =
      if e.1 = k then assocDelete rest k else e :: assocDelete rest k := by
  by_cases he : e.1 = k <;> simp [assocDelete, he]

theorem assocGet_delete_ne {α : Type} (l : List (String × α)) (k k2 : String) (h : k ≠ k2) :
    assocGet (assocDelete l k) k2 = assocGet l k2 := by
  induction l with
  | nil => rfl
  | cons e rest ih =>
    by_cases he : e.1 = k
    · rw [assocDelete_cons, if_pos he]
      have h2 : e.1 ≠ k2 := by rw [he]; exact h
      simp [assocGet, h2, ih]
    · rw [assocDelete_cons, if_neg he]
      by_cases h2 : e.1 = k2
      · simp [assocGet, h2]
      · simp [assocGet, h2, ih]

theorem assocGet_set_ne {α : Type} (l : List (String × α)) (k k2 : String) (v : α)
    (h : k ≠ k2) : assocGet (assocSet l k v) k2 = assocGet l k2 := by
  simp [assocSet, assocGet, h, assocGet_delete_ne l k k2 h]

theorem assocGet_delete_self {α : Type} (l : List (String × α)) (k : String) :
    assocGet (assocDelete l k) k = none := by
  induction l with
  | nil => rfl
  | cons e rest ih =>
    by_cases he : e.1 = k
    · rw [assocDelete_cons, if_pos he]
      exact ih
    · rw [assocDelete_cons, if_neg he]
      simp [assocGet, he, ih]

theorem disposeTimers_cons (e : String × TimerEntry) (rest : List (String × TimerEntry))
    (k : String) :
    disposeTimers (e :: rest) k =
      (if e.1 = k then (e.1, { e.2 with disposed := true }) else e) :: disposeTimers rest k := by
  simp [disposeTimers]

theorem assocGet_disposeTimers_self (l : List (String × TimerEntry)) (k : String) :
    assocGet (disposeTimers l k) k =
      (assocGet l k).map fun t => { t with disposed := true } := by
  induction l with
  | nil => rfl
  | cons e rest ih =>
    by_cases he : e.1 = k
    · rw [disposeTimers_cons, if_pos he]
      simp [assocGet, he, ih]
    · rw [disposeTimers_cons, if_neg he]
      simp [assocGet, he, ih]

theorem updateConnectionState_run_auth (id : String) (s : AuthState) :
    updateConnectionState id ConnState.authenticating s =
      (Except.ok none,
       { s with events := Ev.connectionStateChanged id ConnState.authenticating :: s.events }) := rfl

theorem updateConnectionState_run_same (id : String) (cs : ConnState) (s : AuthState)
    (p : StoredProfile) (hp : assocGet s.store id = some p)
    (hcs : p.metadata.connectionState = cs) (hna : cs ≠ ConnState.authenticating) :
    updateConnectionState id cs s = (Except.ok (some p), s) := by
  simp [updateConnectionState, getProfileOrThrowM, bindA_eq, pureA_eq, bindA, pureA, getA,
    setA, modifyA, throwA, liftE, hp, hcs, hna]

theorem updateConnectionState_run_change (id : String) (cs : ConnState) (s : AuthState)
    (p : StoredProfile) (hp : assocGet s.store id = some p)
    (hcs : p.metadata.connectionState ≠ cs) (hna : cs ≠ ConnState.authenticating) :
    updateConnectionState id cs s =
      (Except.ok (some (patchState p cs)), updatedStateD s id cs (patchState p cs)) := by
  by_cases hinv : cs = ConnState.invalid
  · subst hinv
    cases hac : s.activeConnection with
    | none =>
      simp [updateConnectionState, updateMetadataM, getProfileOrThrowM, bindA_eq, pureA_eq,
        bindA, pureA, getA, setA, modifyA, throwA, liftE, fireE, logC, hp, hcs, hna, hac,
        updatedStateD, patchState, applyPatch]
    | some c =>
      by_cases hc : c.id = id
      · simp [updateConnectionState, updateMetadataM, getProfileOrThrowM, bindA_eq, pureA_eq,
          bindA, pureA, getA, setA, modifyA, throwA, liftE, fireE, logC, hp, hcs, hna, hac,
          hc, updatedStateD, patchState, applyPatch]
      · simp [updateConnectionState, updateMetadataM, getProfileOrThrowM, bindA_eq, pureA_eq,
          bindA, pureA, getA, setA, modifyA, throwA, liftE, fireE, logC, hp, hcs, hna, hac,
          hc, updatedStateD, patchState, applyPatch]
  · cases hac : s.activeConnection with
    | none =>
      simp [updateConnectionState, updateMetadataM, getProfileOrThrowM, bindA_eq, pureA_eq,
        bindA, pureA, getA, setA, modifyA, throwA, liftE, fireE, logC, hp, hcs, hna, hac,
        hinv, updatedStateD, patchState, applyPatch]
    | some c =>
      by_cases hc : c.id = id
      · simp [updateConnectionState, updateMetadataM, getProfileOrThrowM, bindA_eq, pureA_eq,
          bindA, pureA, getA, setA, modifyA, throwA, liftE, fireE, logC, hp, hcs, hna, hac,
          hc, hinv, updatedStateD, patchState, applyPatch]
      · simp [updateConnectionState, updateMetadataM, getProfileOrThrowM, bindA_eq, pureA_eq,
          bindA, pureA, getA, setA, modifyA, throwA, liftE, fireE, logC, hp, hcs, hna, hac,
          hc, hinv, updatedStateD, patchState, applyPatch]

/-- C4: for every connection id whose stored connectionState is already
`invalid` when `handleInvalidCredentials` is invoked, the call fails
immediately with the "connection invalid, log in again" error carrying the
last recorded validation error as cause, the state is untouched and no
interactive prompt is shown. -/
theorem c4_already_invalid_fails_immediately :
    ∀ (env : Env) (s : AuthState) (id : String) (p : StoredProfile) (refresh : AuthCallback),
      assocGet s.store id = some p →
      p.metadata.connectionState = ConnState.invalid →
      handleInvalidCredentials env id refresh s =
        (Except.error (invalidConnectionErr (assocGet s.validationErrors id)), s) := by
  intro env s id p refresh hp hst
  simp [handleInvalidCredentials, updateConnectionState, getProfileOrThrowM,
    bindA_eq, pureA_eq, bindA, pureA, getA, setA, modifyA, throwA, tryCatchA, liftE,
    hp, hst]

def envW : Env :=
  { getToken := fun _ => Except.ok (some ("tokW")),
    createToken := fun _ => Except.ok ("tokW"),
    getCachedCredentials := fun _ => Except.ok none,
    canAutoConnect := fun _ => false,
    createCachedCredentials := fun _ => Except.ok ("credsW"),
    hasIamProvider := fun _ => true,
    promptResp := fun _ => PromptResp.no,
    refresh := fun _ => Except.ok ("refreshedW"),
    isAmazonQ := false,
    codeCatalystDevEnvId := none,
    ssoSessionName := "ccsess" }

def mdW (cs : ConnState) : Metadata := { connectionState := cs, label := none, source := none }

def spSsoW (cs : ConnState) : StoredProfile :=
  { profile := ProfileData.sso ("https://x.awsapps.com/start") ("us-east-1") none,
    metadata := mdW cs }

def emptyW : AuthState :=
  { store := [], currentProfileId := none, validationErrors := [], invalidCredTimeouts := [],
    activeConnection := none, declaredConnections := [], events := [] }

def stInvalidW : AuthState :=
  { emptyW with store := [(("a"), spSsoW ConnState.invalid)],
                validationErrors := [(("a"), mkErr ("expired"))] }

/-- C4 witness: the theorem applied at a concrete invalid connection. -/
theorem c4_witness :
    handleInvalidCredentials envW ("a") (AuthCallback.refreshTag 7) stInvalidW =
      (Except.error (invalidConnectionErr (assocGet stInvalidW.validationErrors ("a"))),
       stInvalidW) :=
  c4_already_invalid_fails_immediately envW stInvalidW ("a") (spSsoW ConnState.invalid)
    (AuthCallback.refreshTag 7) rfl rfl

def stInvalidC6 : AuthState :=
  { stInvalidW with invalidCredTimeouts := [(("a"), { duration := 60000, disposed := false })] }

/-- C6 counterexample: with a stored state of `invalid`, an entry in the
validation-error registry and a pending timer, `updateConnectionState` to
`authenticating` (a move away from `invalid`) removes neither the registry
entry nor the timer, contradicting the claim. -/
theorem c6_counterexample :
    (updateConnectionState ("a") ConnState.authenticating stInvalidC6).1 = Except.ok none ∧
    assocGet (updateConnectionState ("a") ConnState.authenticating stInvalidC6).2.validationErrors
        ("a") = some (mkErr ("expired")) ∧
    assocGet
        (updateConnectionState ("a") ConnState.authenticating stInvalidC6).2.invalidCredTimeouts
        ("a") = some { duration := 60000, disposed := false } := by
  exact ⟨rfl, rfl, rfl⟩

/-- C6 (amended): the registry entry is removed and the timer disposed exactly
when `updateConnectionState` persists a new state that differs from the stored
one and is neither `invalid` nor `authenticating`; the fire-and-forget
`authenticating` announcement performs no cleanup and leaves both maps
untouched. -/
theorem c6_cleanup_on_persisted_transitions :
    (∀ (id : String) (cs : ConnState) (s : AuthState) (p : StoredProfile),
       assocGet s.store id = some p →
       p.metadata.connectionState = ConnState.invalid →
       cs ≠ ConnState.invalid → cs ≠ ConnState.authenticating →
       assocGet (updateConnectionState id cs s).2.validationErrors id = none ∧
       assocGet (updateConnectionState id cs s).2.invalidCredTimeouts id =
         (assocGet s.invalidCredTimeouts id).map fun t => { t with disposed := true })
    ∧ (∀ (id : String) (s : AuthState),
       (updateConnectionState id ConnState.authenticating s).2.validationErrors =
         s.validationErrors ∧
       (updateConnectionState id ConnState.authenticating s).2.invalidCredTimeouts =
         s.invalidCredTimeouts) := by
  constructor
  · intro id cs s p hp hpinv hinv hna
    have hcs : p.metadata.connectionState ≠ cs := by
      rw [hpinv]
      exact fun hh => hinv hh.symm
    rw [updateConnectionState_run_change id cs s p hp hcs hna]
    cases hac : s.activeConnection with
    | none =>
      simp [updatedStateD, hac, hinv, assocGet_delete_self, assocGet_disposeTimers_self]
    | some c =>
      by_cases hc : c.id = id
      · simp [updatedStateD, hac, hc, hinv, assocGet_delete_self, assocGet_disposeTimers_self]
      · simp [updatedStateD, hac, hc, hinv, assocGet_delete_self, assocGet_disposeTimers_self]
  · intro id s
    rw [updateConnectionState_run_auth]
    exact ⟨rfl, rfl⟩

/-- C6 witness: the amended theorem applied at a concrete `invalid → valid`
transition, where the registry entry disappears and the timer is disposed. -/
theorem c6_witness :
    assocGet (updateConnectionState ("a") ConnState.valid stInvalidC6).2.validationErrors
        ("a") = none ∧
    assocGet (updateConnectionState ("a") ConnState.valid stInvalidC6).2.invalidCredTimeouts
        ("a") =
      (assocGet stInvalidC6.invalidCredTimeouts ("a")).map
        (fun t => { t with disposed := true }) :=
  c6_cleanup_on_persisted_transitions.1 ("a") ConnState.valid stInvalidC6
    (spSsoW ConnState.invalid) rfl rfl (by decide) (by decide)

/-- C10: `undeclareConnectionFromApi` on a start URL absent from the
declared-connections registry throws (the registry entry is dereferenced for
logging before deletion) rather than being a no-op; for a start URL previously
registered through `declareConnectionFromApi` the call succeeds and removes
the entry. -/
theorem c10_undeclare_registry :
    (∀ (s : AuthState) (url : String),
       assocGet s.declaredConnections url = none →
       undeclareConnectionFromApi url s =
         (Except.error (mkErr ("TypeError: cannot read source of undefined")), s))
    ∧ (∀ (s : AuthState) (url region src : String),
       (undeclareConnectionFromApi url (declareConnectionFromApi url region src s).2).1 =
         Except.ok () ∧
       assocGet
         (undeclareConnectionFromApi url
           (declareConnectionFromApi url region src s).2).2.declaredConnections url = none) := by
  constructor
  · intro s url h
    simp [undeclareConnectionFromApi, bindA_eq, pureA_eq, bindA, pureA, getA, setA, throwA, h]
  · intro s url region src
    simp [undeclareConnectionFromApi, declareConnectionFromApi, bindA_eq, pureA_eq, bindA,
      pureA, getA, setA, modifyA, throwA, assocGet_set_self, assocGet_delete_self]

/-- C10 witness: the theorem applied at an empty registry and at a concrete
declare-then-undeclare round trip. -/
theorem c10_witness :
    undeclareConnectionFromApi ("https://u") emptyW =
      (Except.error (mkErr ("TypeError: cannot read source of undefined")), emptyW) ∧
    assocGet
      (undeclareConnectionFromApi ("https://u")
        (declareConnectionFromApi ("https://u") ("us-east-1") ("toolkit")
          emptyW).2).2.declaredConnections ("https://u") = none :=
  ⟨c10_undeclare_registry.1 emptyW ("https://u") rfl,
   (c10_undeclare_registry.2 emptyW ("https://u") ("us-east-1") ("toolkit")).2⟩

theorem updatedStateD_store (s : AuthState) (id : String) (cs : ConnState) (p2 : StoredProfile) :
    (updatedStateD s id cs p2).store = assocSet s.store id p2 := by
  cases hac : s.activeConnection with
  | none => by_cases hinv : cs = ConnState.invalid <;> simp [updatedStateD, hac, hinv]
  | some c =>
    by_cases hc : c.id = id <;> by_cases hinv : cs = ConnState.invalid <;>
      simp [updatedStateD, hac, hc, hinv]

theorem updatedStateD_currentProfileId (s : AuthState) (id : String) (cs : ConnState)
    (p2 : StoredProfile) :
    (updatedStateD s id cs p2).currentProfileId = s.currentProfileId := by
  cases hac : s.activeConnection with
  | none => by_cases hinv : cs = ConnState.invalid <;> simp [updatedStateD, hac, hinv]
  | some c =>
    by_cases hc : c.id = id <;> by_cases hinv : cs = ConnState.invalid <;>
      simp [updatedStateD, hac, hc, hinv]

theorem updatedStateD_declared (s : AuthState) (id : String) (cs : ConnState)
    (p2 : StoredProfile) :
    (updatedStateD s id cs p2).declaredConnections = s.declaredConnections := by
  cases hac : s.activeConnection with
  | none => by_cases hinv : cs = ConnState.invalid <;> simp [updatedStateD, hac, hinv]
  | some c =>
    by_cases hc : c.id = id <;> by_cases hinv : cs = ConnState.invalid <;>
      simp [updatedStateD, hac, hc, hinv]

theorem updatedStateD_validationErrors_invalid (s : AuthState) (id : String)
    (p2 : StoredProfile) :
    (updatedStateD s id ConnState.invalid p2).validationErrors = s.validationErrors := by
  cases hac : s.activeConnection with
  | none => simp [updatedStateD, hac]
  | some c => by_cases hc : c.id = id <;> simp [updatedStateD, hac, hc]

theorem updatedStateD_timers_invalid (s : AuthState) (id : String) (p2 : StoredProfile) :
    (updatedStateD s id ConnState.invalid p2).invalidCredTimeouts = s.invalidCredTimeouts := by
  cases hac : s.activeConnection with
  | none => simp [updatedStateD, hac]
  | some c => by_cases hc : c.id = id <;> simp [updatedStateD, hac, hc]

theorem updatedStateD_active_ne (s : AuthState) (id : String) (cs : ConnState)
    (p2 : StoredProfile) (h : (s.activeConnection.map fun c => c.id) ≠ some id) :
    (updatedStateD s id cs p2).activeConnection = s.activeConnection := by
  cases hac : s.activeConnection with
  | none => by_cases hinv : cs = ConnState.invalid <;> simp [updatedStateD, hac, hinv]
  | some c =>
    have hc : ¬ (c.id = id) := by
      rw [hac] at h
      simpa using h
    by_cases hinv : cs = ConnState.invalid <;> simp [updatedStateD, hac, hc, hinv]

theorem countEv_ext_updatedStateD (s : AuthState) (id : String) (cs : ConnState)
    (p2 : StoredProfile) (c : ExtCall) :
    countEv (Ev.ext c) (updatedStateD s id cs p2).events = countEv (Ev.ext c) s.events := by
  cases hac : s.activeConnection with
  | none =>
    by_cases hinv : cs = ConnState.invalid <;> simp [updatedStateD, hac, hinv, countEv]
  | some cc =>
    by_cases hc : cc.id = id <;> by_cases hinv : cs = ConnState.invalid <;>
      simp [updatedStateD, hac, hc, hinv, countEv]

theorem countActiveEv_updatedStateD_ne (s : AuthState) (id : String) (cs : ConnState)
    (p2 : StoredProfile) (h : (s.activeConnection.map fun c => c.id) ≠ some id) :
    countActiveEv (updatedStateD s id cs p2).events = countActiveEv s.events := by
  cases hac : s.activeConnection with
  | none =>
    by_cases hinv : cs = ConnState.invalid <;> simp [updatedStateD, hac, hinv, countActiveEv]
  | some cc =>
    have hc : ¬ (cc.id = id) := by
      rw [hac] at h
      simpa using h
    by_cases hinv : cs = ConnState.invalid <;> simp [updatedStateD, hac, hc, hinv, countActiveEv]

/-- Intermediate state of the interactive recovery path right after the
demotion to `invalid`: a fresh 60-second timer armed and recorded in the
invalid-credential timers map, and the prompt shown. -/
def armTimerPrompt (s : AuthState) (id : String) : AuthState :=
  let t : TimerEntry := { duration := 60000, disposed := false }
  { s with invalidCredTimeouts := assocSet s.invalidCredTimeouts id t,
           events := Ev.ext (ExtCall.promptShown id) :: s.events }

/-- C3: for every connection id whose stored connectionState is `valid` when
`handleInvalidCredentials` is invoked, the state is first set to `invalid`, a
60-second timer is armed and recorded, and the login prompt is raced against
it; declining or timing out fails with an error tagged cancelled (with the
last validation error as cause) while the stored state remains `invalid` and
the timer stays recorded; accepting re-invokes the coalesced authenticate path
with the original refresh callback from exactly that intermediate state. -/
theorem c3_was_valid_interactive_recovery :
    ∀ (env : Env) (s : AuthState) (id : String) (p : StoredProfile) (refresh : AuthCallback),
      assocGet s.store id = some p →
      p.metadata.connectionState = ConnState.valid →
      ((env.promptResp id ≠ PromptResp.login →
         handleInvalidCredentials env id refresh s =
           (Except.error (userCancelledErr (assocGet s.validationErrors id)),
            armTimerPrompt
              (updatedStateD s id ConnState.invalid (patchState p ConnState.invalid)) id) ∧
         (userCancelledErr (assocGet s.validationErrors id)).base.cancelled = true ∧
         connStateOf (handleInvalidCredentials env id refresh s).2 id =
           some ConnState.invalid ∧
         assocGet (handleInvalidCredentials env id refresh s).2.invalidCredTimeouts id =
           some { duration := 60000, disposed := false } ∧
         countEv (Ev.ext (ExtCall.promptShown id))
             (handleInvalidCredentials env id refresh s).2.events =
           countEv (Ev.ext (ExtCall.promptShown id)) s.events + 1)
       ∧ (env.promptResp id = PromptResp.login →
         handleInvalidCredentials env id refresh s =
           authenticate env id refresh false
             (armTimerPrompt
               (updatedStateD s id ConnState.invalid (patchState p ConnState.invalid)) id))) := by
  intro env s id p refresh hp hst
  have hcs : p.metadata.connectionState ≠ ConnState.invalid := by
    rw [hst]
    decide
  have hupd := updateConnectionState_run_change id ConnState.invalid s p hp hcs (by decide)
  constructor
  · intro hpr
    have hmain : handleInvalidCredentials env id refresh s =
        (Except.error (userCancelledErr (assocGet s.validationErrors id)),
         armTimerPrompt
           (updatedStateD s id ConnState.invalid (patchState p ConnState.invalid)) id) := by
      cases hr : env.promptResp id with
      | login => exact absurd hr hpr
      | no =>
        simp [handleInvalidCredentials, bindA_eq, pureA_eq, bindA, pureA, getA, setA,
          modifyA, throwA, liftE, fireE, logC, hp, hst, hupd, hr, armTimerPrompt,
          updatedStateD_validationErrors_invalid]
      | timedOut =>
        simp [handleInvalidCredentials, bindA_eq, pureA_eq, bindA, pureA, getA, setA,
          modifyA, throwA, liftE, fireE, logC, hp, hst, hupd, hr, armTimerPrompt,
          updatedStateD_validationErrors_invalid]
    refine ⟨hmain, rfl, ?_, ?_, ?_⟩
    · rw [hmain]
      simp [connStateOf, armTimerPrompt, updatedStateD_store, assocGet_set_self, patchState]
    · rw [hmain]
      simp [armTimerPrompt, assocGet_set_self]
    · rw [hmain]
      simp [armTimerPrompt, countEv, countEv_ext_updatedStateD, Nat.add_comm]
  · intro hpr
    simp [handleInvalidCredentials, bindA_eq, pureA_eq, bindA, pureA, getA, setA,
      modifyA, throwA, liftE, fireE, logC, hp, hst, hupd, hpr, armTimerPrompt]

def stValidW : AuthState :=
  { emptyW with store := [(("a"), spSsoW ConnState.valid)] }

/-- C3 witness: the theorem applied at a concrete previously-valid connection
with a declining prompt response. -/
theorem c3_witness :
    handleInvalidCredentials envW ("a") (AuthCallback.refreshTag 7) stValidW =
      (Except.error (userCancelledErr (assocGet stValidW.validationErrors ("a"))),
       armTimerPrompt
         (updatedStateD stValidW ("a") ConnState.invalid
           (patchState (spSsoW ConnState.valid) ConnState.invalid)) ("a")) ∧
    connStateOf (handleInvalidCredentials envW ("a") (AuthCallback.refreshTag 7) stValidW).2
        ("a") = some ConnState.invalid :=
  have h := c3_was_valid_interactive_recovery envW stValidW ("a") (spSsoW ConnState.valid)
    (AuthCallback.refreshTag 7) rfl rfl
  have hd := h.1 (by decide)
  ⟨hd.1, hd.2.2.1⟩

theorem upd_state_facts (id : String) (cs : ConnState) (s : AuthState) (p : StoredProfile)
    (hp : assocGet s.store id = some p) (hna : cs ≠ ConnState.authenticating) :
    isOkE (updateConnectionState id cs s).1 = true ∧
    connStateOf (updateConnectionState id cs s).2 id = some cs ∧
    (∀ c : ExtCall, countEv (Ev.ext c) (updateConnectionState id cs s).2.events =
      countEv (Ev.ext c) s.events) ∧
    (∀ q, (updateConnectionState id cs s).1 = Except.ok (some q) →
      q.metadata.connectionState = cs) ∧
    (∀ k, k ≠ id → assocGet (updateConnectionState id cs s).2.store k = assocGet s.store k) := by
  by_cases hv : p.metadata.connectionState = cs
  · rw [updateConnectionState_run_same id cs s p hp hv hna]
    refine ⟨rfl, by simp [connStateOf, hp, hv], fun c => rfl, ?_, fun k hk => rfl⟩
    intro q hq
    have : some p = some q := by simpa using hq
    cases this
    exact hv
  · rw [updateConnectionState_run_change id cs s p hp hv hna]
    refine ⟨rfl, ?_, ?_, ?_, ?_⟩
    · simp [connStateOf, updatedStateD_store, assocGet_set_self, patchState]
    · intro c
      exact countEv_ext_updatedStateD s id cs (patchState p cs) c
    · intro q hq
      have : some (patchState p cs) = some q := by simpa using hq
      cases this
      simp [patchState]
    · intro k hk
      rw [updatedStateD_store]
      exact assocGet_set_ne s.store id k (patchState p cs) (fun hh => hk hh.symm)

theorem patchState_self (p : StoredProfile) (cs : ConnState)
    (h : p.metadata.connectionState = cs) : patchState p cs = p := by
  rw [← h]
  rfl

theorem patchState_connectionState (p : StoredProfile) (cs : ConnState) :
    (patchState p cs).metadata.connectionState = cs := rfl

theorem validate_sso_run_keep (env : Env) (fuel : Nat) (s : AuthState) (id u r : String)
    (sc : Option (List String)) (p : StoredProfile) (tok : String)
    (hp : assocGet s.store id = some p) (hpr : p.profile = ProfileData.sso u r sc)
    (htok : env.getToken (ssoTokenProviderId env id sc) = Except.ok (some tok))
    (hv : p.metadata.connectionState = ConnState.valid) :
    validateConnection (fuel + 1) env id p s =
      (Except.ok (some p),
       { s with events := Ev.ext (ExtCall.getTokenCall (ssoTokenProviderId env id sc)) ::
           s.events }) := by
  have hupd := updateConnectionState_run_same id ConnState.valid
    { s with events := Ev.ext (ExtCall.getTokenCall (ssoTokenProviderId env id sc)) :: s.events }
    p hp hv (by decide)
  simp only [validateConnection, tryCatchA, bindA_eq, pureA_eq, bindA, pureA, getA, setA,
    modifyA, throwA, liftE, fireE, logC, hpr, htok, hupd]

theorem validate_sso_run_change (env : Env) (fuel : Nat) (s : AuthState) (id u r : String)
    (sc : Option (List String)) (p : StoredProfile) (tok : String)
    (hp : assocGet s.store id = some p) (hpr : p.profile = ProfileData.sso u r sc)
    (htok : env.getToken (ssoTokenProviderId env id sc) = Except.ok (some tok))
    (hv : p.metadata.connectionState ≠ ConnState.valid) :
    validateConnection (fuel + 1) env id p s =
      (Except.ok (some (patchState p ConnState.valid)),
       updatedStateD
         { s with events := Ev.ext (ExtCall.getTokenCall (ssoTokenProviderId env id sc)) ::
             s.events }
         id ConnState.valid (patchState p ConnState.valid)) := by
  have hupd := updateConnectionState_run_change id ConnState.valid
    { s with events := Ev.ext (ExtCall.getTokenCall (ssoTokenProviderId env id sc)) :: s.events }
    p hp hv (by decide)
  simp only [validateConnection, tryCatchA, bindA_eq, pureA_eq, bindA, pureA, getA, setA,
    modifyA, throwA, liftE, fireE, logC, hpr, htok, hupd]

theorem validate_sso_none_run_keep (env : Env) (fuel : Nat) (s : AuthState) (id u r : String)
    (sc : Option (List String)) (p : StoredProfile)
    (hp : assocGet s.store id = some p) (hpr : p.profile = ProfileData.sso u r sc)
    (htok : env.getToken (ssoTokenProviderId env id sc) = Except.ok none)
    (hv : p.metadata.connectionState = ConnState.invalid) :
    validateConnection (fuel + 1) env id p s =
      (Except.ok (some p),
       { s with events := Ev.ext (ExtCall.getTokenCall (ssoTokenProviderId env id sc)) ::
           s.events }) := by
  have hupd := updateConnectionState_run_same id ConnState.invalid
    { s with events := Ev.ext (ExtCall.getTokenCall (ssoTokenProviderId env id sc)) :: s.events }
    p hp hv (by decide)
  simp only [validateConnection, tryCatchA, bindA_eq, pureA_eq, bindA, pureA, getA, setA,
    modifyA, throwA, liftE, fireE, logC, hpr, htok, hupd]

theorem validate_sso_none_run_change (env : Env) (fuel : Nat) (s : AuthState) (id u r : String)
    (sc : Option (List String)) (p : StoredProfile)
    (hp : assocGet s.store id = some p) (hpr : p.profile = ProfileData.sso u r sc)
    (htok : env.getToken (ssoTokenProviderId env id sc) = Except.ok none)
    (hv : p.metadata.connectionState ≠ ConnState.invalid) :
    validateConnection (fuel + 1) env id p s =
      (Except.ok (some (patchState p ConnState.invalid)),
       updatedStateD
         { s with events := Ev.ext (ExtCall.getTokenCall (ssoTokenProviderId env id sc)) ::
             s.events }
         id ConnState.invalid (patchState p ConnState.invalid)) := by
  have hupd := updateConnectionState_run_change id ConnState.invalid
    { s with events := Ev.ext (ExtCall.getTokenCall (ssoTokenProviderId env id sc)) :: s.events }
    p hp hv (by decide)
  simp only [validateConnection, tryCatchA, bindA_eq, pureA_eq, bindA, pureA, getA, setA,
    modifyA, throwA, liftE, fireE, logC, hpr, htok, hupd]

/-- C1: `validateConnection` implements the validation algorithm: for an SSO
profile a present token yields `valid` and an absent token yields `invalid`
without throwing; for an IAM profile with subtype `linked`, the source SSO
connection is validated first, and when the source does not come out `valid`
the linked connection is set `invalid` without attempting its own credential
fetch (no credentials-cache call for the linked id is made). -/
theorem c1_validateConnection_algorithm :
    (∀ (env : Env) (fuel : Nat) (s : AuthState) (id u r : String) (sc : Option (List String))
       (p : StoredProfile) (tok : String),
       assocGet s.store id = some p →
       p.profile = ProfileData.sso u r sc →
       env.getToken (ssoTokenProviderId env id sc) = Except.ok (some tok) →
       isOkE (validateConnection (fuel + 1) env id p s).1 = true ∧
       connStateOf (validateConnection (fuel + 1) env id p s).2 id = some ConnState.valid)
    ∧ (∀ (env : Env) (fuel : Nat) (s : AuthState) (id u r : String) (sc : Option (List String))
       (p : StoredProfile),
       assocGet s.store id = some p →
       p.profile = ProfileData.sso u r sc →
       env.getToken (ssoTokenProviderId env id sc) = Except.ok none →
       isOkE (validateConnection (fuel + 1) env id p s).1 = true ∧
       connStateOf (validateConnection (fuel + 1) env id p s).2 id = some ConnState.invalid)
    ∧ (∀ (env : Env) (fuel : Nat) (s : AuthState) (id nm src acct rn u r : String)
       (sc : Option (List String)) (pL pS : StoredProfile),
       assocGet s.store id = some pL →
       pL.profile = ProfileData.iamLinked nm src acct rn →
       assocGet s.store src = some pS →
       pS.profile = ProfileData.sso u r sc →
       id ≠ src →
       env.getToken (ssoTokenProviderId env src sc) = Except.ok none →
       isOkE (validateConnection (fuel + 2) env id pL s).1 = true ∧
       connStateOf (validateConnection (fuel + 2) env id pL s).2 id = some ConnState.invalid ∧
       countEv (Ev.ext (ExtCall.getCachedCredentialsCall id))
           (validateConnection (fuel + 2) env id pL s).2.events =
         countEv (Ev.ext (ExtCall.getCachedCredentialsCall id)) s.events) := by
  refine ⟨?_, ?_, ?_⟩
  · intro env fuel s id u r sc p tok hp hpr htok
    by_cases hv : p.metadata.connectionState = ConnState.valid
    · rw [validate_sso_run_keep env fuel s id u r sc p tok hp hpr htok hv]
      simp [isOkE, connStateOf, hp, hv]
    · rw [validate_sso_run_change env fuel s id u r sc p tok hp hpr htok hv]
      simp [isOkE, connStateOf, updatedStateD_store, assocGet_set_self, patchState]
  · intro env fuel s id u r sc p hp hpr htok
    by_cases hv : p.metadata.connectionState = ConnState.invalid
    · rw [validate_sso_none_run_keep env fuel s id u r sc p hp hpr htok hv]
      simp [isOkE, connStateOf, hp, hv]
    · rw [validate_sso_none_run_change env fuel s id u r sc p hp hpr htok hv]
      simp [isOkE, connStateOf, updatedStateD_store, assocGet_set_self, patchState]
  · intro env fuel s id nm src acct rn u r sc pL pS hpL hpLr hpS hpSr hne htok
    by_cases hsv : pS.metadata.connectionState = ConnState.invalid
    · have hupd1 := updateConnectionState_run_same src ConnState.invalid
        { s with events := Ev.ext (ExtCall.getTokenCall (ssoTokenProviderId env src sc)) ::
            s.events }
        pS hpS hsv (by decide)
      have hlook1 : assocGet
          ({ s with events := Ev.ext (ExtCall.getTokenCall (ssoTokenProviderId env src sc)) ::
              s.events } : AuthState).store id = some pL := hpL
      have hfacts := upd_state_facts id ConnState.invalid
        { s with events := Ev.ext (ExtCall.getTokenCall (ssoTokenProviderId env src sc)) ::
            s.events }
        pL hlook1 (by decide)
      have hdec : decide (ConnState.invalid = ConnState.valid) = false := rfl
      simp only [validateConnection, tryCatchA, getProfileOrThrowM, bindA_eq, pureA_eq, bindA,
        pureA, getA, setA, modifyA, throwA, liftE, fireE, logC, hpL, hpLr, hpS, hpSr, htok,
        hupd1, hsv, hdec, Bool.false_eq_true, if_false]
      rcases hres : updateConnectionState id ConnState.invalid
          { s with events := Ev.ext (ExtCall.getTokenCall (ssoTokenProviderId env src sc)) ::
              s.events }
        with ⟨res, ss⟩
      rw [hres] at hfacts
      rcases hfacts with ⟨h1, h2, h3, h4, h5⟩
      cases res with
      | ok a =>
        refine ⟨rfl, h2, ?_⟩
        rw [h3 (ExtCall.getCachedCredentialsCall id)]
        simp [countEv]
      | error e => simp [isOkE] at h1
    · have hupd1 := updateConnectionState_run_change src ConnState.invalid
        { s with events := Ev.ext (ExtCall.getTokenCall (ssoTokenProviderId env src sc)) ::
            s.events }
        pS hpS hsv (by decide)
      have hlook1 : assocGet
          (updatedStateD
            { s with events := Ev.ext (ExtCall.getTokenCall (ssoTokenProviderId env src sc)) ::
                s.events }
            src ConnState.invalid (patchState pS ConnState.invalid)).store id = some pL := by
        rw [updatedStateD_store]
        rw [assocGet_set_ne _ src id _ (fun hh => hne hh.symm)]
        exact hpL
      have hfacts := upd_state_facts id ConnState.invalid
        (updatedStateD
          { s with events := Ev.ext (ExtCall.getTokenCall (ssoTokenProviderId env src sc)) ::
              s.events }
          src ConnState.invalid (patchState pS ConnState.invalid))
        pL hlook1 (by decide)
      have hdec : decide (ConnState.invalid = ConnState.valid) = false := rfl
      simp only [validateConnection, tryCatchA, getProfileOrThrowM, bindA_eq, pureA_eq, bindA,
        pureA, getA, setA, modifyA, throwA, liftE, fireE, logC, hpL, hpLr, hpS, hpSr, htok,
        hupd1, patchState_connectionState, hdec, Bool.false_eq_true, if_false]
      rcases hres : updateConnectionState id ConnState.invalid
          (updatedStateD
            { s with events := Ev.ext (ExtCall.getTokenCall (ssoTokenProviderId env src sc)) ::
                s.events }
            src ConnState.invalid (patchState pS ConnState.invalid))
        with ⟨res, ss⟩
      rw [hres] at hfacts
      rcases hfacts with ⟨h1, h2, h3, h4, h5⟩
      cases res with
      | ok a =>
        refine ⟨rfl, h2, ?_⟩
        rw [h3 (ExtCall.getCachedCredentialsCall id)]
        rw [countEv_ext_updatedStateD]
        simp [countEv]
      | error e => simp [isOkE] at h1

def spLinkedW (src : String) (cs : ConnState) : StoredProfile :=
  { profile := ProfileData.iamLinked ("roleW") src ("111111111111") ("roleName"),
    metadata := mdW cs }

def stLinkedW : AuthState :=
  { emptyW with store := [(("L"), spLinkedW ("S") ConnState.valid),
                          (("S"), spSsoW ConnState.valid)] }

def envNoTokenW : Env := { envW with getToken := fun _ => Except.ok none }

/-- C1 witness: the theorem applied at a concrete SSO profile with a present
token, at one with an absent token, and at a concrete linked IAM profile whose
source SSO validation comes out `invalid`. -/
theorem c1_witness :
    (isOkE (validateConnection 1 envW ("a") (spSsoW ConnState.valid) stValidW).1 = true ∧
     connStateOf (validateConnection 1 envW ("a") (spSsoW ConnState.valid)
        stValidW).2 ("a") = some ConnState.valid) ∧
    (isOkE (validateConnection 1 envNoTokenW ("a") (spSsoW ConnState.valid) stValidW).1 =
        true ∧
     connStateOf (validateConnection 1 envNoTokenW ("a") (spSsoW ConnState.valid)
        stValidW).2 ("a") = some ConnState.invalid) ∧
    (isOkE (validateConnection 2 envNoTokenW ("L") (spLinkedW ("S") ConnState.valid)
        stLinkedW).1 = true ∧
     connStateOf (validateConnection 2 envNoTokenW ("L") (spLinkedW ("S") ConnState.valid)
        stLinkedW).2 ("L") = some ConnState.invalid ∧
     countEv (Ev.ext (ExtCall.getCachedCredentialsCall ("L")))
         (validateConnection 2 envNoTokenW ("L") (spLinkedW ("S") ConnState.valid)
            stLinkedW).2.events =
       countEv (Ev.ext (ExtCall.getCachedCredentialsCall ("L"))) stLinkedW.events) :=
  ⟨c1_validateConnection_algorithm.1 envW 0 stValidW ("a") ("https://x.awsapps.com/start")
     ("us-east-1") none (spSsoW ConnState.valid) ("tokW") rfl rfl rfl,
   c1_validateConnection_algorithm.2.1 envNoTokenW 0 stValidW ("a")
     ("https://x.awsapps.com/start") ("us-east-1") none (spSsoW ConnState.valid) rfl rfl rfl,
   c1_validateConnection_algorithm.2.2 envNoTokenW 0 stLinkedW ("L") ("roleW") ("S")
     ("111111111111") ("roleName") ("https://x.awsapps.com/start") ("us-east-1") none
     (spLinkedW ("S") ConnState.valid) (spSsoW ConnState.valid) rfl rfl rfl rfl
     (by decide) rfl⟩

/-- An IAM profile (subtype present or missing). -/
def isIamProfile : ProfileData → Bool
  | ProfileData.sso _ _ _ => false
  | ProfileData.iamUnknown => true
  | ProfileData.iamLinked _ _ _ _ => true

/-- The stored profile created by `ProfileStore.addProfile`. -/
def freshStoredProfile (p : ProfileData) : StoredProfile :=
  { profile := p,
    metadata := { connectionState := ConnState.unauthenticated, label := none, source := none } }

/-- C2: `createConnection` rejects IAM profiles outright leaving the whole
state unchanged; for an SSO profile, when token acquisition fails (`getToken`
throwing, or `getToken` returning absent and `createToken` throwing) the
freshly generated id has no profile in the store afterwards and the original
error is rethrown; on success (a cached token, or a created one) the profile
is persisted under the fresh id with connection state `valid`. -/
theorem c2_createConnection_atomic :
    (∀ (env : Env) (s : AuthState) (freshId : String) (p : ProfileData),
       isIamProfile p = true →
       createConnection env freshId p s =
         (Except.error (mkErr ("Creating IAM connections is not supported")), s))
    ∧ (∀ (env : Env) (s : AuthState) (freshId u r : String) (sc : Option (List String))
       (e : Err),
       assocGet s.store freshId = none →
       env.getToken (ssoTokenProviderId env freshId sc) = Except.error e →
       (createConnection env freshId (ProfileData.sso u r sc) s).1 = Except.error e ∧
       assocGet (createConnection env freshId (ProfileData.sso u r sc) s).2.store freshId =
         none)
    ∧ (∀ (env : Env) (s : AuthState) (freshId u r : String) (sc : Option (List String))
       (e : Err),
       assocGet s.store freshId = none →
       env.getToken (ssoTokenProviderId env freshId sc) = Except.ok none →
       env.createToken (ssoTokenProviderId env freshId sc) = Except.error e →
       (createConnection env freshId (ProfileData.sso u r sc) s).1 = Except.error e ∧
       assocGet (createConnection env freshId (ProfileData.sso u r sc) s).2.store freshId =
         none)
    ∧ (∀ (env : Env) (s : AuthState) (freshId u r : String) (sc : Option (List String))
       (tok : String),
       assocGet s.store freshId = none →
       env.getToken (ssoTokenProviderId env freshId sc) = Except.ok (some tok) →
       (createConnection env freshId (ProfileData.sso u r sc) s).1 =
         Except.ok (mkConn freshId (freshStoredProfile (ProfileData.sso u r sc))) ∧
       assocGet (createConnection env freshId (ProfileData.sso u r sc) s).2.store freshId =
         some (patchState (freshStoredProfile (ProfileData.sso u r sc)) ConnState.valid))
    ∧ (∀ (env : Env) (s : AuthState) (freshId u r : String) (sc : Option (List String))
       (tok : String),
       assocGet s.store freshId = none →
       env.getToken (ssoTokenProviderId env freshId sc) = Except.ok none →
       env.createToken (ssoTokenProviderId env freshId sc) = Except.ok tok →
       (createConnection env freshId (ProfileData.sso u r sc) s).1 =
         Except.ok (mkConn freshId (freshStoredProfile (ProfileData.sso u r sc))) ∧
       assocGet (createConnection env freshId (ProfileData.sso u r sc) s).2.store freshId =
         some (patchState (freshStoredProfile (ProfileData.sso u r sc)) ConnState.valid)) := by
  refine ⟨?_, ?_, ?_, ?_, ?_⟩
  · intro env s freshId p hiam
    cases p with
    | sso u r sc => simp [isIamProfile] at hiam
    | iamUnknown => rfl
    | iamLinked nm src acct rn => rfl
  · intro env s freshId u r sc e hfresh htok
    simp [createConnection, updateConnectionState_run_auth, tryCatchA, deleteProfileM,
      bindA_eq, pureA_eq, bindA, pureA, getA, setA, modifyA, throwA, liftE, fireE, logC,
      htok, assocGet_delete_self]
  · intro env s freshId u r sc e hfresh htok hct
    simp [createConnection, updateConnectionState_run_auth, tryCatchA, deleteProfileM,
      bindA_eq, pureA_eq, bindA, pureA, getA, setA, modifyA, throwA, liftE, fireE, logC,
      htok, hct, assocGet_delete_self]
  · intro env s freshId u r sc tok hfresh htok
    have hupd := updateConnectionState_run_change freshId ConnState.valid
      { s with store := assocSet s.store freshId (freshStoredProfile (ProfileData.sso u r sc)),
               events := Ev.ext (ExtCall.getTokenCall (ssoTokenProviderId env freshId sc)) ::
                 Ev.connectionStateChanged freshId ConnState.authenticating :: s.events }
      (freshStoredProfile (ProfileData.sso u r sc))
      (assocGet_set_self s.store freshId (freshStoredProfile (ProfileData.sso u r sc)))
      (by simp [freshStoredProfile]) (by decide)
    simp only [freshStoredProfile] at hupd
    simp only [createConnection, updateConnectionState_run_auth, tryCatchA, addProfileM,
      deleteProfileM, freshStoredProfile, bindA_eq, pureA_eq, bindA, pureA, getA, setA,
      modifyA, throwA, liftE, fireE, logC, htok, hfresh, hupd]
    constructor
    · trivial
    · rw [updatedStateD_store]
      exact assocGet_set_self _ freshId _
  · intro env s freshId u r sc tok hfresh htok hct
    have hupd := updateConnectionState_run_change freshId ConnState.valid
      { s with store := assocSet s.store freshId (freshStoredProfile (ProfileData.sso u r sc)),
               events := Ev.ext (ExtCall.createTokenCall (ssoTokenProviderId env freshId sc)) ::
                 Ev.ext (ExtCall.getTokenCall (ssoTokenProviderId env freshId sc)) ::
                 Ev.connectionStateChanged freshId ConnState.authenticating :: s.events }
      (freshStoredProfile (ProfileData.sso u r sc))
      (assocGet_set_self s.store freshId (freshStoredProfile (ProfileData.sso u r sc)))
      (by simp [freshStoredProfile]) (by decide)
    simp only [freshStoredProfile] at hupd
    simp only [createConnection, updateConnectionState_run_auth, tryCatchA, addProfileM,
      deleteProfileM, freshStoredProfile, bindA_eq, pureA_eq, bindA, pureA, getA, setA,
      modifyA, throwA, liftE, fireE, logC, htok, hct, hfresh, hupd]
    constructor
    · trivial
    · rw [updatedStateD_store]
      exact assocGet_set_self _ freshId _

def netErrW : Err :=
  { base := { message := "getaddrinfo ENOTFOUND", code := some ("ENOTFOUND"), network := true,
              diskCache := false, cancelled := false, profileNotFound := false },
    cause := none }

def diskErrW : Err :=
  { base := { message := "EACCES: permission denied", code := some ("EACCES"), network := false,
              diskCache := true, cancelled := false, profileNotFound := false },
    cause := none }

def envErrW : Env := { envW with getToken := fun _ => Except.error netErrW }

/-- C2 witness: the theorem applied at a concrete IAM rejection, a concrete
failed token acquisition, and a concrete successful creation. -/
theorem c2_witness :
    createConnection envW ("f") ProfileData.iamUnknown emptyW =
      (Except.error (mkErr ("Creating IAM connections is not supported")), emptyW) ∧
    ((createConnection envErrW ("f")
        (ProfileData.sso ("https://x.awsapps.com/start") ("us-east-1") none) emptyW).1 =
      Except.error netErrW ∧
     assocGet (createConnection envErrW ("f")
        (ProfileData.sso ("https://x.awsapps.com/start") ("us-east-1") none)
        emptyW).2.store ("f") = none) ∧
    ((createConnection envW ("f")
        (ProfileData.sso ("https://x.awsapps.com/start") ("us-east-1") none) emptyW).1 =
      Except.ok (mkConn ("f")
        (freshStoredProfile (ProfileData.sso ("https://x.awsapps.com/start")
          ("us-east-1") none))) ∧
     assocGet (createConnection envW ("f")
        (ProfileData.sso ("https://x.awsapps.com/start") ("us-east-1") none)
        emptyW).2.store ("f") =
      some (patchState (freshStoredProfile
        (ProfileData.sso ("https://x.awsapps.com/start") ("us-east-1") none))
        ConnState.valid)) :=
  ⟨c2_createConnection_atomic.1 envW emptyW ("f") ProfileData.iamUnknown rfl,
   c2_createConnection_atomic.2.1 envErrW emptyW ("f") ("https://x.awsapps.com/start")
     ("us-east-1") none netErrW rfl rfl,
   c2_createConnection_atomic.2.2.2.1 envW emptyW ("f") ("https://x.awsapps.com/start")
     ("us-east-1") none ("tokW") rfl rfl⟩

theorem recoverableWrap_cause (e w : Err) (h : recoverableWrap e = some w) :
    w.cause = some e.base := by
  unfold recoverableWrap at h
  split_ifs at h
  · cases h
    rfl
  · cases h
    rfl

theorem upd_invalid_validationErrors (id : String) (s : AuthState) (p : StoredProfile)
    (hp : assocGet s.store id = some p) :
    (updateConnectionState id ConnState.invalid s).2.validationErrors = s.validationErrors := by
  by_cases hv : p.metadata.connectionState = ConnState.invalid
  · rw [updateConnectionState_run_same id ConnState.invalid s p hp hv (by decide)]
  · rw [updateConnectionState_run_change id ConnState.invalid s p hp hv (by decide)]
    exact updatedStateD_validationErrors_invalid _ _ _

/-- The wrapper `throwOnRecoverableError` builds for a `DiskCacheError`. -/
def diskWrapOf (e : Err) : Err :=
  { base := { message := "Failed to update connection due to file system operation failures",
              code := e.base.code, network := false, diskCache := false,
              cancelled := false, profileNotFound := false },
    cause := some e.base }

def envDiskErrW : Env := { envW with getToken := fun _ => Except.error diskErrW }

/-- C5 counterexample: for a linked IAM profile whose source SSO validation
hits a disk-cache error, the once-wrapped error is no longer recognized as
recoverable at the linked connection validation boundary: `validateConnection`
swallows it (resolving normally instead of rethrowing) and flips the linked
connection state to `invalid`, contradicting the claim for this recoverable
infrastructure failure. -/
theorem c5_counterexample :
    (validateConnection 2 envDiskErrW ("L") (spLinkedW ("S") ConnState.valid) stLinkedW).1 =
      Except.ok none ∧
    connStateOf (validateConnection 2 envDiskErrW ("L") (spLinkedW ("S") ConnState.valid)
        stLinkedW).2 ("L") = some ConnState.invalid := by
  exact ⟨rfl, rfl⟩

/-- C5 (amended): a recoverable infrastructure failure (network or disk-cache
error, exactly the errors `recoverableWrap` recognizes) raised by a
connection!s own token fetch or credentials fetch during validation, or during
the coalesced token retrieval, is rethrown to the caller wrapped with its
cause preserved and without changing the stored connection state or the
validation-error registry; however, when the failure arises while validating
the source SSO connection of a linked profile and the wrapper is no longer
recognized as recoverable (the disk-cache case), the linked connection is
marked `invalid`, the wrapper is recorded in the registry, and the error is
swallowed rather than rethrown, while the source state stays unchanged. -/
theorem c5_recoverable_infra_passthrough :
    (∀ (env : Env) (fuel : Nat) (s : AuthState) (id u r : String) (sc : Option (List String))
       (p : StoredProfile) (e w : Err),
       assocGet s.store id = some p →
       p.profile = ProfileData.sso u r sc →
       env.getToken (ssoTokenProviderId env id sc) = Except.error e →
       recoverableWrap e = some w →
       validateConnection (fuel + 1) env id p s =
         (Except.error w,
          { s with events := Ev.ext (ExtCall.getTokenCall (ssoTokenProviderId env id sc)) ::
              s.events }) ∧
       w.cause = some e.base)
    ∧ (∀ (env : Env) (fuel : Nat) (s : AuthState) (id : String) (p : StoredProfile) (e w : Err),
       p.profile = ProfileData.iamUnknown →
       env.hasIamProvider id = true →
       env.getCachedCredentials id = Except.error e →
       recoverableWrap e = some w →
       validateConnection (fuel + 1) env id p s =
         (Except.error w,
          { s with events := Ev.ext (ExtCall.getCachedCredentialsCall id) :: s.events }) ∧
       w.cause = some e.base)
    ∧ (∀ (env : Env) (s : AuthState) (id tid : String) (e w : Err),
       env.getToken tid = Except.error e →
       recoverableWrap e = some w →
       getTokenOp env id tid s =
         (Except.error w,
          { s with events := Ev.ext (ExtCall.getTokenCall tid) :: s.events }) ∧
       w.cause = some e.base)
    ∧ (∀ (env : Env) (fuel : Nat) (s : AuthState) (id nm src acct rn u r : String)
       (sc : Option (List String)) (pL pS : StoredProfile) (e w : Err),
       assocGet s.store id = some pL →
       pL.profile = ProfileData.iamLinked nm src acct rn →
       assocGet s.store src = some pS →
       pS.profile = ProfileData.sso u r sc →
       id ≠ src →
       env.getToken (ssoTokenProviderId env src sc) = Except.error e →
       e.base.network = false →
       e.base.diskCache = true →
       recoverableWrap e = some w →
       (validateConnection (fuel + 2) env id pL s).1 = Except.ok none ∧
       connStateOf (validateConnection (fuel + 2) env id pL s).2 id =
         some ConnState.invalid ∧
       connStateOf (validateConnection (fuel + 2) env id pL s).2 src = connStateOf s src ∧
       assocGet (validateConnection (fuel + 2) env id pL s).2.validationErrors id = some w) := by
  refine ⟨?_, ?_, ?_, ?_⟩
  · intro env fuel s id u r sc p e w hp hpr htok hw
    refine ⟨?_, recoverableWrap_cause e w hw⟩
    simp [validateConnection, tryCatchA, handleSsoTokenError, throwOnRecoverableErrorM,
      bindA_eq, pureA_eq, bindA, pureA, getA, setA, modifyA, throwA, liftE, fireE, logC,
      hpr, htok, hw]
  · intro env fuel s id p e w hpr hprov hcreds hw
    refine ⟨?_, recoverableWrap_cause e w hw⟩
    simp [validateConnection, tryCatchA, handleSsoTokenError, throwOnRecoverableErrorM,
      getCredentialsProviderM, getCachedCredentialsM, bindA_eq, pureA_eq, bindA, pureA,
      getA, setA, modifyA, throwA, liftE, fireE, logC, hpr, hprov, hcreds, hw]
  · intro env s id tid e w htok hw
    refine ⟨?_, recoverableWrap_cause e w hw⟩
    simp [getTokenOp, throwOnRecoverableErrorM, bindA_eq, pureA_eq, bindA, pureA, getA,
      setA, modifyA, throwA, liftE, fireE, logC, htok, hw]
  · intro env fuel s id nm src acct rn u r sc pL pS e w hpL hpLr hpS hpSr hne htok henw hd hw
    have hwl : w = diskWrapOf e := by
      unfold recoverableWrap at hw
      rw [henw] at hw
      simp [hd] at hw
      rw [← hw]
      rfl
    have hww : recoverableWrap w = none := by
      rw [hwl]
      rfl
    have hlook1 : assocGet
        ({ s with validationErrors := assocSet s.validationErrors id w, events := Ev.ext (ExtCall.getTokenCall (ssoTokenProviderId env src sc)) :: s.events } : AuthState).store id =
        some pL := hpL
    have hfacts := upd_state_facts id ConnState.invalid
      { s with validationErrors := assocSet s.validationErrors id w, events := Ev.ext (ExtCall.getTokenCall (ssoTokenProviderId env src sc)) :: s.events }
      pL hlook1 (by decide)
    have hve := upd_invalid_validationErrors id
      { s with validationErrors := assocSet s.validationErrors id w, events := Ev.ext (ExtCall.getTokenCall (ssoTokenProviderId env src sc)) :: s.events }
      pL hlook1
    simp only [validateConnection, tryCatchA, getProfileOrThrowM, handleSsoTokenError,
      throwOnRecoverableErrorM, bindA_eq, pureA_eq, bindA, pureA, getA, setA, modifyA,
      throwA, liftE, fireE, logC, hpL, hpLr, hpS, hpSr, htok, hw, hww]
    rcases hres : updateConnectionState id ConnState.invalid
        { s with validationErrors := assocSet s.validationErrors id w, events := Ev.ext (ExtCall.getTokenCall (ssoTokenProviderId env src sc)) :: s.events }
      with ⟨res, ss⟩
    rw [hres] at hfacts hve
    rcases hfacts with ⟨h1, h2, h3, h4, h5⟩
    cases res with
    | ok a =>
      refine ⟨rfl, h2, ?_, ?_⟩
      · have hsrc := h5 src (fun hh => hne hh.symm)
        simp [connStateOf, hsrc]
      · rw [hve]
        exact assocGet_set_self _ _ _
    | error e2 => simp [isOkE] at h1

def recNetWrapW : Err :=
  { base := { message := "Failed to update connection due to networking issues",
              code := some ("ENOTFOUND"), network := true, diskCache := false,
              cancelled := false, profileNotFound := false },
    cause := some netErrW.base }

def recDiskWrapW : Err :=
  { base := { message := "Failed to update connection due to file system operation failures",
              code := some ("EACCES"), network := false, diskCache := false,
              cancelled := false, profileNotFound := false },
    cause := some diskErrW.base }

/-- C5 witness: the amended theorem applied at a concrete network failure
during SSO validation and at the concrete linked disk-cache scenario. -/
theorem c5_witness :
    (validateConnection 1 envErrW ("a") (spSsoW ConnState.valid) stValidW =
       (Except.error (recNetWrapW),
        { stValidW with events := Ev.ext (ExtCall.getTokenCall ("a")) :: stValidW.events }) ∧
     (recNetWrapW).cause = some netErrW.base) ∧
    ((validateConnection 2 envDiskErrW ("L") (spLinkedW ("S") ConnState.valid) stLinkedW).1 =
       Except.ok none ∧
     connStateOf (validateConnection 2 envDiskErrW ("L") (spLinkedW ("S") ConnState.valid)
         stLinkedW).2 ("L") = some ConnState.invalid ∧
     connStateOf (validateConnection 2 envDiskErrW ("L") (spLinkedW ("S") ConnState.valid)
         stLinkedW).2 ("S") = connStateOf stLinkedW ("S") ∧
     assocGet (validateConnection 2 envDiskErrW ("L") (spLinkedW ("S") ConnState.valid)
         stLinkedW).2.validationErrors ("L") = some (recDiskWrapW)) :=
  ⟨c5_recoverable_infra_passthrough.1 envErrW 0 stValidW ("a")
     ("https://x.awsapps.com/start") ("us-east-1") none (spSsoW ConnState.valid) netErrW
     (recNetWrapW) rfl rfl rfl rfl,
   c5_recoverable_infra_passthrough.2.2.2 envDiskErrW 0 stLinkedW ("L") ("roleW") ("S")
     ("111111111111") ("roleName") ("https://x.awsapps.com/start") ("us-east-1") none
     (spLinkedW ("S") ConnState.valid) (spSsoW ConnState.valid) diskErrW (recDiskWrapW)
     rfl rfl rfl rfl (by decide) rfl rfl rfl rfl⟩

/-- Whether a connection is an internal-Amazon-user SSO connection. -/
def isInternalConn (c : Conn) : Bool :=
  match c.connType, c.startUrl with
  | ConnType.sso, some u => normalizeStartUrl u = internalStartUrl
  | _, _ => false

theorem isInternalAmazonUserS_set (s : AuthState) (c : Conn)
    (h : s.activeConnection = some c) : isInternalAmazonUserS s = isInternalConn c := by
  unfold isInternalAmazonUserS isInternalConn
  rw [h]

theorem countEv_activeChanged_updatedStateD_ne (s : AuthState) (id : String) (cs : ConnState)
    (p2 : StoredProfile) (x : Option Conn)
    (h : (s.activeConnection.map fun c => c.id) ≠ some id) :
    countEv (Ev.activeConnectionChanged x) (updatedStateD s id cs p2).events =
      countEv (Ev.activeConnectionChanged x) s.events := by
  cases hac : s.activeConnection with
  | none =>
    by_cases hinv : cs = ConnState.invalid <;> simp [updatedStateD, hac, hinv, countEv]
  | some cc =>
    have hc : ¬ (cc.id = id) := by
      rw [hac] at h
      simpa using h
    by_cases hinv : cs = ConnState.invalid <;> simp [updatedStateD, hac, hc, hinv, countEv]

theorem mkConn_id (id : String) (p : StoredProfile) : (mkConn id p).id = id := by
  cases hp : p.profile <;> simp [mkConn, hp]

def connAW : Conn := mkConn ("a") (spSsoW ConnState.valid)

def stActiveW : AuthState := { stValidW with activeConnection := some connAW }

/-- C8 counterexample: when the requested id is already the active connection
and revalidation changes its state (token now absent), `useConnection` fires
two activeConnectionChanged events rather than exactly one. -/
theorem c8_counterexample :
    assocGet stActiveW.store ("a") = some (spSsoW ConnState.valid) ∧
    countActiveEv (useConnection envNoTokenW 2 ("a") stActiveW).2.events = 2 := by
  exact ⟨rfl, rfl⟩

/-- C8 (amended): for every existing SSO connection id whose revalidation
succeeds with a present token and which is not the currently active
connection, `useConnection` resolves the profile, sets the resulting
Connection (with matching id) as the active connection, persists it as the
current profile id, fires exactly one activeConnectionChanged event carrying
that Connection, and records the ambient internal-org-user flag update derived
from the new active connection; the returned Connection carries the requested
id.  (When the requested connection is already active and revalidation changes
its state, an additional activeConnectionChanged event fires for the in-place
mutation, as the counterexample shows.) -/
theorem c8_useConnection_activates :
    ∀ (env : Env) (fuel : Nat) (s : AuthState) (id u r : String) (sc : Option (List String))
      (p : StoredProfile) (tok : String),
      assocGet s.store id = some p →
      p.profile = ProfileData.sso u r sc →
      env.getToken (ssoTokenProviderId env id sc) = Except.ok (some tok) →
      (s.activeConnection.map fun c => c.id) ≠ some id →
      (useConnection env (fuel + 1) id s).1 =
        Except.ok (mkConn id (patchState p ConnState.valid)) ∧
      (mkConn id (patchState p ConnState.valid)).id = id ∧
      (useConnection env (fuel + 1) id s).2.activeConnection =
        some (mkConn id (patchState p ConnState.valid)) ∧
      (useConnection env (fuel + 1) id s).2.currentProfileId = some id ∧
      countActiveEv (useConnection env (fuel + 1) id s).2.events =
        countActiveEv s.events + 1 ∧
      countEv (Ev.activeConnectionChanged (some (mkConn id (patchState p ConnState.valid))))
          (useConnection env (fuel + 1) id s).2.events =
        countEv (Ev.activeConnectionChanged (some (mkConn id (patchState p ConnState.valid))))
          s.events + 1 ∧
      countEv (Ev.ext (ExtCall.setContextCall ("aws.isInternalUser")
            (isInternalConn (mkConn id (patchState p ConnState.valid)))))
          (useConnection env (fuel + 1) id s).2.events =
        countEv (Ev.ext (ExtCall.setContextCall ("aws.isInternalUser")
            (isInternalConn (mkConn id (patchState p ConnState.valid)))))
          s.events + 1 := by
  intro env fuel s id u r sc p tok hp hpr htok hactne
  by_cases hv : p.metadata.connectionState = ConnState.valid
  · have hps : patchState p ConnState.valid = p := patchState_self p ConnState.valid hv
    have hrun := validate_sso_run_keep env fuel s id u r sc p tok hp hpr htok hv
    simp only [useConnection, refreshConnectionState, bindA_eq, pureA_eq, bindA, pureA,
      getA, setA, modifyA, throwA, liftE, fireE, logC, setCurrentProfileIdM, hp, hrun, hps]
    refine ⟨trivial, mkConn_id id p, trivial, trivial, ?_, ?_, ?_⟩
    · simp [countActiveEv, Nat.add_comm]
    · simp [countEv, Nat.add_comm]
    · rw [isInternalAmazonUserS_set _ (mkConn id p) (by rfl)]
      simp [countEv, Nat.add_comm]
  · have hrun := validate_sso_run_change env fuel s id u r sc p tok hp hpr htok hv
    have hlook : assocGet
        (updatedStateD
          { s with events := Ev.ext (ExtCall.getTokenCall (ssoTokenProviderId env id sc)) ::
              s.events }
          id ConnState.valid (patchState p ConnState.valid)).store id =
        some (patchState p ConnState.valid) := by
      rw [updatedStateD_store]
      exact assocGet_set_self _ _ _
    simp only [useConnection, refreshConnectionState, bindA_eq, pureA_eq, bindA, pureA,
      getA, setA, modifyA, throwA, liftE, fireE, logC, setCurrentProfileIdM, hp, hrun,
      hlook]
    refine ⟨trivial, mkConn_id id (patchState p ConnState.valid), trivial, trivial,
      ?_, ?_, ?_⟩
    · simp only [countActiveEv, countEv]
      rw [countActiveEv_updatedStateD_ne
        { s with events := Ev.ext (ExtCall.getTokenCall (ssoTokenProviderId env id sc)) :: s.events }
        id ConnState.valid (patchState p ConnState.valid) hactne]
      simp [countActiveEv, Nat.add_comm]
    · simp only [countEv]
      rw [countEv_activeChanged_updatedStateD_ne
        { s with events := Ev.ext (ExtCall.getTokenCall (ssoTokenProviderId env id sc)) :: s.events }
        id ConnState.valid (patchState p ConnState.valid)
        (some (mkConn id (patchState p ConnState.valid))) hactne]
      simp [countEv, Nat.add_comm]
    · rw [isInternalAmazonUserS_set _ (mkConn id (patchState p ConnState.valid)) (by rfl)]
      simp only [countEv]
      rw [countEv_ext_updatedStateD
        { s with events := Ev.ext (ExtCall.getTokenCall (ssoTokenProviderId env id sc)) :: s.events }
        id ConnState.valid (patchState p ConnState.valid)
        (ExtCall.setContextCall ("aws.isInternalUser")
          (isInternalConn (mkConn id (patchState p ConnState.valid))))]
      simp [countEv, Nat.add_comm]

/-- C8 witness: the amended theorem applied at a concrete non-active SSO
connection with a present token. -/
theorem c8_witness :
    (useConnection envW 1 ("a") stValidW).1 =
      Except.ok (mkConn ("a") (patchState (spSsoW ConnState.valid) ConnState.valid)) ∧
    (mkConn ("a") (patchState (spSsoW ConnState.valid) ConnState.valid)).id = ("a") ∧
    (useConnection envW 1 ("a") stValidW).2.activeConnection =
      some (mkConn ("a") (patchState (spSsoW ConnState.valid) ConnState.valid)) ∧
    (useConnection envW 1 ("a") stValidW).2.currentProfileId = some ("a") ∧
    countActiveEv (useConnection envW 1 ("a") stValidW).2.events =
      countActiveEv stValidW.events + 1 ∧
    countEv (Ev.activeConnectionChanged
        (some (mkConn ("a") (patchState (spSsoW ConnState.valid) ConnState.valid))))
        (useConnection envW 1 ("a") stValidW).2.events =
      countEv (Ev.activeConnectionChanged
        (some (mkConn ("a") (patchState (spSsoW ConnState.valid) ConnState.valid))))
        stValidW.events + 1 ∧
    countEv (Ev.ext (ExtCall.setContextCall ("aws.isInternalUser")
          (isInternalConn (mkConn ("a") (patchState (spSsoW ConnState.valid)
            ConnState.valid)))))
        (useConnection envW 1 ("a") stValidW).2.events =
      countEv (Ev.ext (ExtCall.setContextCall ("aws.isInternalUser")
          (isInternalConn (mkConn ("a") (patchState (spSsoW ConnState.valid)
            ConnState.valid)))))
        stValidW.events + 1 :=
  c8_useConnection_activates envW 0 stValidW ("a") ("https://x.awsapps.com/start")
    ("us-east-1") none (spSsoW ConnState.valid) ("tokW") rfl rfl rfl (by decide)

theorem countEv_stateChanged_updatedStateD_ne (s : AuthState) (id : String) (cs : ConnState)
    (p2 : StoredProfile) (id2 : String) (cs2 : ConnState) (h : cs ≠ cs2) :
    countEv (Ev.connectionStateChanged id2 cs2) (updatedStateD s id cs p2).events =
      countEv (Ev.connectionStateChanged id2 cs2) s.events := by
  cases hac : s.activeConnection with
  | none =>
    by_cases hinv : cs = ConnState.invalid <;>
      (simp [updatedStateD, hac, hinv, countEv, h]; try exact fun _ => hinv ▸ h)
  | some cc =>
    by_cases hc : cc.id = id <;> by_cases hinv : cs = ConnState.invalid <;>
      (simp [updatedStateD, hac, hc, hinv, countEv, h]; try exact fun _ => hinv ▸ h)

theorem countEv_stateChanged_updatedStateD_self (s : AuthState) (id : String)
    (cs : ConnState) (p2 : StoredProfile) :
    countEv (Ev.connectionStateChanged id cs) (updatedStateD s id cs p2).events =
      countEv (Ev.connectionStateChanged id cs) s.events + 1 := by
  cases hac : s.activeConnection with
  | none =>
    by_cases hinv : cs = ConnState.invalid <;>
      simp [updatedStateD, hac, hinv, countEv, Nat.add_comm]
  | some cc =>
    by_cases hc : cc.id = id <;> by_cases hinv : cs = ConnState.invalid <;>
      simp [updatedStateD, hac, hc, hinv, countEv, Nat.add_comm]

/-- C9: concurrent authentication attempts for the same connection id are
coalesced by the pending-map mechanism (a second call for a key with an
in-flight operation attaches to that operation instead of starting a new
one, receiving the same operation instance and hence its result), and a
single underlying authenticate operation announces `authenticating` exactly
once and persists `valid` exactly once on success. -/
theorem c9_concurrent_auth_coalesced :
    (∀ (k : String) (s : KdState),
       assocGet s.pending k = none →
       (kdCall k s).2.2 = true ∧
       (kdCall k (kdCall k s).1).2.2 = false ∧
       (kdCall k (kdCall k s).1).2.1 = (kdCall k s).2.1)
    ∧ (∀ (env : Env) (s : AuthState) (id tid tok : String) (p : StoredProfile),
       assocGet s.store id = some p →
       p.metadata.connectionState ≠ ConnState.valid →
       env.createToken tid = Except.ok tok →
       (authenticateCore env id (AuthCallback.createToken tid) false s).1 = Except.ok tok ∧
       connStateOf (authenticateCore env id (AuthCallback.createToken tid) false s).2 id =
         some ConnState.valid ∧
       countEv (Ev.connectionStateChanged id ConnState.authenticating)
           (authenticateCore env id (AuthCallback.createToken tid) false s).2.events =
         countEv (Ev.connectionStateChanged id ConnState.authenticating) s.events + 1 ∧
       countEv (Ev.connectionStateChanged id ConnState.valid)
           (authenticateCore env id (AuthCallback.createToken tid) false s).2.events =
         countEv (Ev.connectionStateChanged id ConnState.valid) s.events + 1) := by
  constructor
  · intro k s h
    simp [kdCall, h, assocGet_set_self]
  · intro env s id tid tok p hp hv hct
    have hupd := updateConnectionState_run_change id ConnState.valid
      { s with events := Ev.ext (ExtCall.createTokenCall tid) ::
          Ev.connectionStateChanged id ConnState.authenticating :: s.events }
      p hp hv (by decide)
    simp only [authenticateCore, runCallback, updateConnectionState_run_auth, tryCatchA,
      bindA_eq, pureA_eq, bindA, pureA, getA, setA, modifyA, throwA, liftE, fireE, logC,
      hct, hupd]
    refine ⟨trivial, ?_, ?_, ?_⟩
    · simp [connStateOf, updatedStateD_store, assocGet_set_self, patchState]
    · rw [countEv_stateChanged_updatedStateD_ne
        { s with events := Ev.ext (ExtCall.createTokenCall tid) ::
            Ev.connectionStateChanged id ConnState.authenticating :: s.events }
        id ConnState.valid (patchState p ConnState.valid) id ConnState.authenticating
        (by decide)]
      simp [countEv, Nat.add_comm]
    · rw [countEv_stateChanged_updatedStateD_self
        { s with events := Ev.ext (ExtCall.createTokenCall tid) ::
            Ev.connectionStateChanged id ConnState.authenticating :: s.events }
        id ConnState.valid (patchState p ConnState.valid)]
      simp [countEv]

/-- C9 witness: the theorem applied at a concrete pending map and a concrete
successful authenticate run. -/
theorem c9_witness :
    ((kdCall ("a") { pending := [], nextOp := 0 }).2.2 = true ∧
     (kdCall ("a") (kdCall ("a") { pending := [], nextOp := 0 }).1).2.2 = false ∧
     (kdCall ("a") (kdCall ("a") { pending := [], nextOp := 0 }).1).2.1 =
       (kdCall ("a") { pending := [], nextOp := 0 }).2.1) ∧
    ((authenticateCore envW ("a") (AuthCallback.createToken ("a")) false stInvalidW).1 =
       Except.ok ("tokW") ∧
     connStateOf (authenticateCore envW ("a") (AuthCallback.createToken ("a")) false
        stInvalidW).2 ("a") = some ConnState.valid ∧
     countEv (Ev.connectionStateChanged ("a") ConnState.authenticating)
         (authenticateCore envW ("a") (AuthCallback.createToken ("a")) false
           stInvalidW).2.events =
       countEv (Ev.connectionStateChanged ("a") ConnState.authenticating)
         stInvalidW.events + 1 ∧
     countEv (Ev.connectionStateChanged ("a") ConnState.valid)
         (authenticateCore envW ("a") (AuthCallback.createToken ("a")) false
           stInvalidW).2.events =
       countEv (Ev.connectionStateChanged ("a") ConnState.valid) stInvalidW.events + 1) :=
  ⟨c9_concurrent_auth_coalesced.1 ("a") { pending := [], nextOp := 0 } rfl,
   c9_concurrent_auth_coalesced.2 envW stInvalidW ("a") ("a") ("tokW")
     (spSsoW ConnState.invalid) rfl (by decide) rfl⟩

theorem countEv_activeNone_updatedStateD (s : AuthState) (id : String) (cs : ConnState)
    (p2 : StoredProfile) :
    countEv (Ev.activeConnectionChanged none) (updatedStateD s id cs p2).events =
      countEv (Ev.activeConnectionChanged none) s.events := by
  cases hac : s.activeConnection with
  | none =>
    by_cases hinv : cs = ConnState.invalid <;> simp [updatedStateD, hac, hinv, countEv]
  | some cc =>
    by_cases hc : cc.id = id <;> by_cases hinv : cs = ConnState.invalid <;>
      simp [updatedStateD, hac, hc, hinv, countEv]

theorem countEv_deleted_updatedStateD (s : AuthState) (id : String) (cs : ConnState)
    (p2 : StoredProfile) (cid : String) (sp : Option StoredProfile) :
    countEv (Ev.connectionDeleted cid sp) (updatedStateD s id cs p2).events =
      countEv (Ev.connectionDeleted cid sp) s.events := by
  cases hac : s.activeConnection with
  | none =>
    by_cases hinv : cs = ConnState.invalid <;> simp [updatedStateD, hac, hinv, countEv]
  | some cc =>
    by_cases hc : cc.id = id <;> by_cases hinv : cs = ConnState.invalid <;>
      simp [updatedStateD, hac, hc, hinv, countEv]

theorem upd_facts2 (id : String) (cs : ConnState) (s : AuthState) (p : StoredProfile)
    (hp : assocGet s.store id = some p) (hna : cs ≠ ConnState.authenticating) :
    (updateConnectionState id cs s).2.currentProfileId = s.currentProfileId ∧
    countEv (Ev.activeConnectionChanged none) (updateConnectionState id cs s).2.events =
      countEv (Ev.activeConnectionChanged none) s.events ∧
    (∀ (cid : String) (sp : Option StoredProfile),
      countEv (Ev.connectionDeleted cid sp) (updateConnectionState id cs s).2.events =
        countEv (Ev.connectionDeleted cid sp) s.events) ∧
    ((s.activeConnection.map fun c => c.id) ≠ some id →
      (updateConnectionState id cs s).2.activeConnection = s.activeConnection) := by
  by_cases hv : p.metadata.connectionState = cs
  · rw [updateConnectionState_run_same id cs s p hp hv hna]
    exact ⟨rfl, rfl, fun cid sp => rfl, fun _ => rfl⟩
  · rw [updateConnectionState_run_change id cs s p hp hv hna]
    exact ⟨updatedStateD_currentProfileId _ _ _ _,
      countEv_activeNone_updatedStateD _ _ _ _,
      fun cid sp => countEv_deleted_updatedStateD _ _ _ _ cid sp,
      fun h => updatedStateD_active_ne _ _ _ _ h⟩

theorem assocGet_filter_none {α : Type} (l : List (String × α)) (k : String)
    (f : String × α → Bool) (h : assocGet l k = none) :
    assocGet (l.filter f) k = none := by
  induction l with
  | nil => rfl
  | cons e rest ih =>
    by_cases he : e.1 = k
    · simp [assocGet, he] at h
    · have h2 : assocGet rest k = none := by
        simpa [assocGet, he] using h
      by_cases hf : f e = true
      · simp [List.filter, hf, assocGet, he, ih h2]
      · have hf2 : f e = false := by
          revert hf
          cases f e <;> simp
        simp only [List.filter, hf2]
        exact ih h2
  
theorem assocGet_none_of_not_mem {α : Type} (l : List (String × α)) (k : String)
    (h : k ∉ l.map Prod.fst) : assocGet l k = none := by
  induction l with
  | nil => rfl
  | cons e rest ih =>
    simp only [List.map, List.mem_cons] at h
    push_neg at h
    have he : e.1 ≠ k := fun hh => h.1 hh.symm
    simp [assocGet, he]
    exact ih h.2

theorem assocGet_filter_false_of_nodup {α : Type} (l : List (String × α)) (k : String)
    (v : α) (f : String × α → Bool) (hnd : (l.map Prod.fst).Nodup)
    (hget : assocGet l k = some v) (hf : f (k, v) = false) :
    assocGet (l.filter f) k = none := by
  induction l with
  | nil => simp [assocGet] at hget
  | cons e rest ih =>
    simp only [List.map, List.nodup_cons] at hnd
    by_cases he : e.1 = k
    · have hev : e = (k, v) := by
        have h2 : e.2 = v := by
          simpa [assocGet, he] using hget
        cases e
        simp only at he h2
        rw [he, h2]
      have hnm : assocGet rest k = none := by
        apply assocGet_none_of_not_mem
        rw [← he]
        exact hnd.1
      simp only [List.filter, hev, hf]
      exact assocGet_filter_none rest k f hnm
    · have hget2 : assocGet rest k = some v := by
        simpa [assocGet, he] using hget
      have ih2 := ih hnd.2 hget2
      by_cases hfe : f e = true
      · simp [List.filter, hfe, assocGet, he, ih2]
      · have hfe2 : f e = false := by
          revert hfe
          cases f e <;> simp
        simp only [List.filter, hfe2]
        exact ih2

theorem keys_nodup_assocDelete {α : Type} (l : List (String × α)) (k : String)
    (h : (l.map Prod.fst).Nodup) : ((assocDelete l k).map Prod.fst).Nodup :=
  List.Nodup.sublist ((List.filter_sublist l).map Prod.fst) h

theorem keys_nodup_assocSet {α : Type} (l : List (String × α)) (k : String) (v : α)
    (h : (l.map Prod.fst).Nodup) : ((assocSet l k v).map Prod.fst).Nodup := by
  simp only [assocSet, List.map]
  rw [List.nodup_cons]
  constructor
  · intro hm
    obtain ⟨e, hmem, heq⟩ := List.mem_map.mp hm
    have hne := (List.mem_filter.mp hmem).2
    rw [heq] at hne
    simp at hne
  · exact keys_nodup_assocDelete l k h

theorem upd_store_shape (id : String) (cs : ConnState) (s : AuthState) (p : StoredProfile)
    (hp : assocGet s.store id = some p) (hna : cs ≠ ConnState.authenticating) :
    (updateConnectionState id cs s).2.store = s.store ∨
    (updateConnectionState id cs s).2.store = assocSet s.store id (patchState p cs) := by
  by_cases hv : p.metadata.connectionState = cs
  · rw [updateConnectionState_run_same id cs s p hp hv hna]
    left
    rfl
  · rw [updateConnectionState_run_change id cs s p hp hv hna]
    right
    exact updatedStateD_store s id cs (patchState p cs)

def spIamW : StoredProfile :=
  { profile := ProfileData.iamUnknown, metadata := mdW ConnState.valid }

def stC7c : AuthState := { emptyW with store := [(("iam"), spIamW)] }

/-- C7: `deleteConnection` is idempotent and distinguishes the active
connection: an absent profile completes without error and still fires the
deletion event; deleting the active connection performs full logout semantics
including external invalidation; deleting a non-active connection invalidates
it without performing logout; deleting an SSO profile sweeps linked IAM
profiles that no longer resolve from the store. -/
theorem c7_deleteConnection_semantics :
    (∀ (env : Env) (s : AuthState) (id : String),
       assocGet s.store id = none →
       deleteConnection env id s =
         (Except.ok (), { s with events := Ev.connectionDeleted id none :: s.events }))
    ∧ (∀ (env : Env) (s : AuthState) (id u r : String) (sc : Option (List String))
       (p : StoredProfile) (c : Conn),
       assocGet s.store id = some p →
       p.profile = ProfileData.sso u r sc →
       s.activeConnection = some c →
       c.id = id →
       env.codeCatalystDevEnvId = none →
       isOkE (deleteConnection env id s).1 = true ∧
       (deleteConnection env id s).2.currentProfileId = none ∧
       (deleteConnection env id s).2.activeConnection = none ∧
       countEv (Ev.ext ExtCall.logoutEntry) (deleteConnection env id s).2.events =
         countEv (Ev.ext ExtCall.logoutEntry) s.events + 1 ∧
       countEv (Ev.ext (ExtCall.clientLogoutCall id)) (deleteConnection env id s).2.events =
         countEv (Ev.ext (ExtCall.clientLogoutCall id)) s.events + 1 ∧
       countEv (Ev.activeConnectionChanged none) (deleteConnection env id s).2.events =
         countEv (Ev.activeConnectionChanged none) s.events + 1 ∧
       assocGet (deleteConnection env id s).2.store id = none ∧
       countEv (Ev.connectionDeleted id (some p)) (deleteConnection env id s).2.events =
         countEv (Ev.connectionDeleted id (some p)) s.events + 1)
    ∧ (∀ (env : Env) (s : AuthState) (id : String) (p : StoredProfile),
       assocGet s.store id = some p →
       p.profile = ProfileData.iamUnknown →
       (s.activeConnection.map fun c => c.id) ≠ some id →
       isOkE (deleteConnection env id s).1 = true ∧
       (deleteConnection env id s).2.currentProfileId = s.currentProfileId ∧
       (deleteConnection env id s).2.activeConnection = s.activeConnection ∧
       countEv (Ev.ext ExtCall.logoutEntry) (deleteConnection env id s).2.events =
         countEv (Ev.ext ExtCall.logoutEntry) s.events ∧
       countEv (Ev.ext (ExtCall.invalidateCredentialsCall id))
           (deleteConnection env id s).2.events =
         countEv (Ev.ext (ExtCall.invalidateCredentialsCall id)) s.events + 1 ∧
       assocGet (deleteConnection env id s).2.store id = none ∧
       countEv (Ev.connectionDeleted id (some p)) (deleteConnection env id s).2.events =
         countEv (Ev.connectionDeleted id (some p)) s.events + 1)
    ∧ (∀ (env : Env) (s : AuthState) (sid lid nm acct rn u r : String)
       (sc : Option (List String)) (pS pl : StoredProfile),
       (s.store.map Prod.fst).Nodup →
       assocGet s.store sid = some pS →
       pS.profile = ProfileData.sso u r sc →
       assocGet s.store lid = some pl →
       pl.profile = ProfileData.iamLinked nm sid acct rn →
       lid ≠ sid →
       s.activeConnection = none →
       env.codeCatalystDevEnvId = none →
       isOkE (deleteConnection env sid s).1 = true ∧
       assocGet (deleteConnection env sid s).2.store lid = none ∧
       assocGet (deleteConnection env sid s).2.store sid = none) := by
  refine ⟨?_, ?_, ?_, ?_⟩
  · intro env s id h
    simp [deleteConnection, bindA_eq, pureA_eq, bindA, pureA, getA, setA, modifyA, throwA,
      liftE, fireE, logC, h]
  · intro env s id u r sc p c hp hpr hac hcid henv
    have hcond : (Option.map (fun cc => cc.id) (some c) = some id) = True := by
      simp [hcid]
    have hlook4 : assocGet ({ s with currentProfileId := none, activeConnection := some c, events := Ev.ext (ExtCall.providerInvalidateCall (ssoTokenProviderId env id sc) ("explicitInvalidation")) :: Ev.ext (ExtCall.clientLogoutCall id) :: Ev.ext ExtCall.logoutEntry :: s.events } : AuthState).store id = some p := hp
    have hfacts := upd_state_facts id ConnState.invalid
      { s with currentProfileId := none, activeConnection := some c, events := Ev.ext (ExtCall.providerInvalidateCall (ssoTokenProviderId env id sc) ("explicitInvalidation")) :: Ev.ext (ExtCall.clientLogoutCall id) :: Ev.ext ExtCall.logoutEntry :: s.events }
      p hlook4 (by decide)
    have hfacts2 := upd_facts2 id ConnState.invalid
      { s with currentProfileId := none, activeConnection := some c, events := Ev.ext (ExtCall.providerInvalidateCall (ssoTokenProviderId env id sc) ("explicitInvalidation")) :: Ev.ext (ExtCall.clientLogoutCall id) :: Ev.ext ExtCall.logoutEntry :: s.events }
      p hlook4 (by decide)
    simp only [deleteConnection, logout, invalidateConnection, getProfileOrThrowM,
      setCurrentProfileIdM, deleteProfileM, clearStaleLinkedIamConnections,
      loadIamProfilesIntoStoreModel, bindA_eq, pureA_eq, bindA, pureA, getA, setA, modifyA,
      throwA, liftE, fireE, logC, hp, hpr, hac, hcid, henv, hcond, ite_true,
      Option.isNone_none, Bool.not_false, Bool.true_or, Bool.or_true]
    rcases hres : updateConnectionState id ConnState.invalid
        { s with currentProfileId := none, activeConnection := some c, events := Ev.ext (ExtCall.providerInvalidateCall (ssoTokenProviderId env id sc) ("explicitInvalidation")) :: Ev.ext (ExtCall.clientLogoutCall id) :: Ev.ext ExtCall.logoutEntry :: s.events }
      with ⟨res, ss⟩
    rw [hres] at hfacts hfacts2
    rcases hfacts with ⟨h1, h2, h3, h4, h5⟩
    rcases hfacts2 with ⟨g1, g2, g3, g4⟩
    cases res with
    | ok a =>
      refine ⟨rfl, by simpa using g1, rfl, ?_, ?_, ?_, ?_, ?_⟩
      · simp only [countEv]
        rw [h3 ExtCall.logoutEntry]
        simp [countEv, Nat.add_comm]
      · simp only [countEv]
        rw [h3 (ExtCall.clientLogoutCall id)]
        simp [countEv, Nat.add_comm]
      · simp only [countEv]
        rw [g2]
        simp [countEv, Nat.add_comm]
      · exact assocGet_filter_none _ id _ (assocGet_delete_self _ id)
      · simp only [countEv]
        rw [g3 id (some p)]
        simp [countEv, Nat.add_comm]
    | error e => simp [isOkE] at h1
  · intro env s id p hp hpr hactne
    have hcond : ((s.activeConnection.map fun cc => cc.id) = some id) = False := by
      simp only [eq_iff_iff, iff_false]
      exact hactne
    have hlook3 : assocGet ({ s with events := Ev.ext (ExtCall.invalidateCredentialsCall id) :: s.events } : AuthState).store id = some p := hp
    have hfacts := upd_state_facts id ConnState.invalid
      { s with events := Ev.ext (ExtCall.invalidateCredentialsCall id) :: s.events }
      p hlook3 (by decide)
    have hfacts2 := upd_facts2 id ConnState.invalid
      { s with events := Ev.ext (ExtCall.invalidateCredentialsCall id) :: s.events }
      p hlook3 (by decide)
    simp only [deleteConnection, logout, invalidateConnection, getProfileOrThrowM,
      setCurrentProfileIdM, deleteProfileM, clearStaleLinkedIamConnections,
      loadIamProfilesIntoStoreModel, bindA_eq, pureA_eq, bindA, pureA, getA, setA, modifyA,
      throwA, liftE, fireE, logC, hp, hpr, hcond, ite_false]
    rcases hres : updateConnectionState id ConnState.invalid
        { s with events := Ev.ext (ExtCall.invalidateCredentialsCall id) :: s.events }
      with ⟨res, ss⟩
    rw [hres] at hfacts hfacts2
    rcases hfacts with ⟨h1, h2, h3, h4, h5⟩
    rcases hfacts2 with ⟨g1, g2, g3, g4⟩
    cases res with
    | ok a =>
      have hact2 : ss.activeConnection = s.activeConnection := by simpa using g4 hactne
      refine ⟨rfl, by simpa using g1, by simpa using hact2, ?_, ?_, ?_, ?_⟩
      · simp only [countEv]
        rw [h3 ExtCall.logoutEntry]
        simp [countEv]
      · simp only [countEv]
        rw [h3 (ExtCall.invalidateCredentialsCall id)]
        simp [countEv, Nat.add_comm]
      · exact assocGet_delete_self _ id
      · simp only [countEv]
        rw [g3 id (some p)]
        simp [countEv, Nat.add_comm]
    | error e => simp [isOkE] at h1
  · intro env s sid lid nm acct rn u r sc pS pl hnd hpS hpSr hpl hplr hne hact henv
    have hcond : ((s.activeConnection.map fun cc => cc.id) = some sid) = False := by
      simp [hact]
    have hlook3 : assocGet ({ s with events := Ev.ext (ExtCall.providerInvalidateCall (ssoTokenProviderId env sid sc) ("explicitInvalidation")) :: Ev.ext (ExtCall.clientLogoutCall sid) :: s.events } : AuthState).store sid = some pS := hpS
    have hfacts := upd_state_facts sid ConnState.invalid
      { s with events := Ev.ext (ExtCall.providerInvalidateCall (ssoTokenProviderId env sid sc) ("explicitInvalidation")) :: Ev.ext (ExtCall.clientLogoutCall sid) :: s.events }
      pS hlook3 (by decide)
    have hfacts2 := upd_facts2 sid ConnState.invalid
      { s with events := Ev.ext (ExtCall.providerInvalidateCall (ssoTokenProviderId env sid sc) ("explicitInvalidation")) :: Ev.ext (ExtCall.clientLogoutCall sid) :: s.events }
      pS hlook3 (by decide)
    simp only [deleteConnection, logout, invalidateConnection, getProfileOrThrowM,
      setCurrentProfileIdM, deleteProfileM, clearStaleLinkedIamConnections,
      loadIamProfilesIntoStoreModel, bindA_eq, pureA_eq, bindA, pureA, getA, setA, modifyA,
      throwA, liftE, fireE, logC, hpS, hpSr, hcond, ite_false, ite_true, henv,
      Option.isNone_none, Bool.not_false, Bool.true_or]
    rcases hres : updateConnectionState sid ConnState.invalid
        { s with events := Ev.ext (ExtCall.providerInvalidateCall (ssoTokenProviderId env sid sc) ("explicitInvalidation")) :: Ev.ext (ExtCall.clientLogoutCall sid) :: s.events }
      with ⟨res, ss⟩
    have hshape := upd_store_shape sid ConnState.invalid
      { s with events := Ev.ext (ExtCall.providerInvalidateCall (ssoTokenProviderId env sid sc) ("explicitInvalidation")) :: Ev.ext (ExtCall.clientLogoutCall sid) :: s.events }
      pS hlook3 (by decide)
    rw [hres] at hfacts hfacts2 hshape
    rcases hfacts with ⟨h1, h2, h3, h4, h5⟩
    rcases hfacts2 with ⟨g1, g2, g3, g4⟩
    cases res with
    | ok a =>
      have hact2 : ss.activeConnection = none := by
        have := g4 (by simp [hact])
        simpa [hact] using this
      have hndss : ((ss.store.map Prod.fst)).Nodup := by
        rcases hshape with hh | hh
        · rw [hh]
          exact hnd
        · rw [hh]
          exact keys_nodup_assocSet _ _ _ hnd
      have hgetl : assocGet (assocDelete ss.store sid) lid = some pl := by
        rw [assocGet_delete_ne ss.store sid lid (Ne.symm hne), h5 lid hne]
        exact hpl
      simp only [hact2]
      refine ⟨rfl, ?_, ?_⟩
      · exact assocGet_filter_false_of_nodup (assocDelete ss.store sid) lid pl _
          (keys_nodup_assocDelete _ _ hndss) hgetl (by simp [hplr, assocGet_delete_self])
      · exact assocGet_filter_none _ sid _ (assocGet_delete_self _ sid)
    | error e => simp [isOkE] at h1

/-- C7 witness: the theorem applied at concrete states covering all four
behaviors: absent id, active SSO deletion, non-active IAM deletion, and the
linked-profile sweep after deleting an SSO source. -/
theorem c7_witness :
    deleteConnection envW ("missing") emptyW =
      (Except.ok (),
        { emptyW with events := Ev.connectionDeleted ("missing") none :: emptyW.events }) ∧
    (deleteConnection envW ("a") stActiveW).2.activeConnection = none ∧
    assocGet (deleteConnection envW ("a") stActiveW).2.store ("a") = none ∧
    assocGet (deleteConnection envW ("iam") stC7c).2.store ("iam") = none ∧
    (deleteConnection envW ("iam") stC7c).2.activeConnection = stC7c.activeConnection ∧
    assocGet (deleteConnection envW ("S") stLinkedW).2.store ("L") = none := by
  have ha := c7_deleteConnection_semantics.1 envW emptyW ("missing") (by rfl)
  have hb := c7_deleteConnection_semantics.2.1 envW stActiveW ("a")
    ("https://x.awsapps.com/start") ("us-east-1") none (spSsoW ConnState.valid) connAW
    (by rfl) (by rfl) (by rfl) (by rfl) (by rfl)
  have hc := c7_deleteConnection_semantics.2.2.1 envW stC7c ("iam") spIamW
    (by rfl) (by rfl) (by decide)
  have hd := c7_deleteConnection_semantics.2.2.2 envW stLinkedW ("S") ("L")
    ("roleW") ("111111111111") ("roleName") ("https://x.awsapps.com/start") ("us-east-1")
    none (spSsoW ConnState.valid) (spLinkedW ("S") ConnState.valid)
    (by decide) (by rfl) (by rfl) (by rfl) (by rfl) (by decide) (by rfl) (by rfl)
  exact ⟨ha, hb.2.2.1, hb.2.2.2.2.2.2.1, hc.2.2.2.2.2.1, hc.2.2.1, hd.2.1⟩

end AwsAuth
